import Mathlib

set_option maxRecDepth 8192
set_option maxHeartbeats 1600000

/-! Verification of the webhook ingestion core of the student-db backend.

The definitions below are a shallow embedding of
src/backend/app/routers/webhooks.py and of the data model it operates on.
SQLAlchemy sessions become explicit state passing over a DB record, machine
integers become Nat/Int, byte strings become List Nat, and the Python string
operations used by the code (lower, strip, split) are modelled over ASCII
character lists. -/

namespace StudentDb

/-! ### Python string primitives, modelled over ASCII characters -/

/-- Model of Python str.lower for one ASCII character. -/
def pyCharLower (c : Char) : Char :=
  if 65 ≤ c.toNat ∧ c.toNat ≤ 90 then Char.ofNat (c.toNat + 32) else c

/-- Characters stripped by Python str.strip (ASCII whitespace). -/
def pyIsSpace (c : Char) : Bool :=
  c == ' ' || c == '\t' || c == '\n' || c == '\r' ||
  c.toNat == 11 || c.toNat == 12

/-- Model of Python str.lower. -/
def pyLower (s : String) : String := ⟨s.data.map pyCharLower⟩

/-- Strip ASCII whitespace from both ends of a character list. -/
def stripChars (l : List Char) : List Char :=
  ((l.dropWhile pyIsSpace).reverse.dropWhile pyIsSpace).reverse

/-- Model of Python str.strip. -/
def pyStrip (s : String) : String := ⟨stripChars s.data⟩

/-- The normalisation email.lower().strip() applied throughout webhooks.py. -/
def normEmail (s : String) : String := pyStrip (pyLower s)

/-- Truthiness of an optional string, as Python sees it: None and the empty
string are falsy. Returns the string when truthy. -/
def truthyStr : Option String → Option String
  | none => none
  | some s => if s.isEmpty then none else some s

/-- Python expression a or b over optional strings. -/
def pyOrStr (a b : Option String) : Option String :=
  match truthyStr a with
  | some s => some s
  | none => b

/-- Truthiness of an optional integer id, as Python sees it: None and 0 are
falsy. -/
def optNatTruthy : Option Nat → Bool
  | none => false
  | some n => n != 0

/-- Replace the first element satisfying p by f of it, as a Python loop that
mutates the object returned by query(...).first() does. -/
def updateFirst {α : Type} (p : α → Bool) (f : α → α) : List α → List α
  | [] => []
  | x :: xs => if p x then f x :: xs else x :: updateFirst p f xs

/-! ### JSON-ish scalar values carried by survey answers -/

/-- A scalar value extracted from a survey answer (string, integer or
boolean). Fractional numbers are outside this model; the code paths under
verification only move integers, booleans and strings. -/
inductive JVal where
  | s (v : String)
  | n (v : Int)
  | b (v : Bool)
deriving Repr, DecidableEq

/-- Python str() of a scalar value. -/
def jvalStr : JVal → String
  | .s v => v
  | .n v => toString v
  | .b v => if v then "True" else "False"

/-- Python truthiness of a scalar value. -/
def jvalTruthy : JVal → Bool
  | .s v => !v.isEmpty
  | .n v => v != 0
  | .b v => v

/-! ### Python dict operations over association lists -/

def dictGet (l : List (String × JVal)) (k : String) : Option JVal :=
  (l.find? (fun kv => kv.1 == k)).map (fun kv => kv.2)

def dictHas (l : List (String × JVal)) (k : String) : Bool :=
  l.any (fun kv => kv.1 == k)

/-- Python d[k] = v: overwrites in place, else appends preserving insertion
order. -/
def dictSet (l : List (String × JVal)) (k : String) (v : JVal) :
    List (String × JVal) :=
  if dictHas l k then l.map (fun kv => if kv.1 == k then (k, v) else kv)
  else l ++ [(k, v)]

/-- Python d.pop(k, default): the value (if any) and the dict without k. -/
def dictPop (l : List (String × JVal)) (k : String) :
    Option JVal × List (String × JVal) :=
  (dictGet l k, l.filter (fun kv => kv.1 != k))

/-- Lookup in a string-to-string configuration map (a parsed JSON object). -/
def smGet (l : List (String × String)) (k : String) : Option String :=
  (l.find? (fun kv => kv.1 == k)).map (fun kv => kv.2)

/-! ### _split_name -/

/-- Model of Python full_name.strip().split(None, 1): at most two pieces,
splitting at the first whitespace run. -/
def splitNameParts (s : String) : List String :=
  let t := stripChars s.data
  if t.isEmpty then []
  else
    let first := t.takeWhile (fun c => !pyIsSpace c)
    let rest := (t.dropWhile (fun c => !pyIsSpace c)).dropWhile pyIsSpace
    if rest.isEmpty then [⟨first⟩] else [⟨first⟩, ⟨rest⟩]

/-- Embedding of _split_name in webhooks.py. -/
def _split_name (full_name : String) : String × String :=
  match splitNameParts full_name with
  | [] => ("Unknown", "")
  | [f] => (f, "")
  | f :: l :: _ => (f, l)

/-! ### UTF-8 encoding (Python str.encode) -/

/-- UTF-8 encoding of one character, as a list of byte values. -/
def utf8Char (c : Char) : List Nat :=
  let n := c.toNat
  if n < 128 then [n]
  else if n < 2048 then [192 + n / 64, 128 + n % 64]
  else if n < 65536 then [224 + n / 4096, 128 + n / 64 % 64, 128 + n % 64]
  else [240 + n / 262144, 128 + n / 4096 % 64, 128 + n / 64 % 64, 128 + n % 64]

/-- Model of Python s.encode(): UTF-8 bytes of a string. -/
def utf8 (s : String) : List Nat := s.data.flatMap utf8Char

/-! ### SHA-256 (FIPS 180-4), over lists of byte values -/

/-- Truncation to a 32-bit word. -/
def w32 (n : Nat) : Nat := n % 4294967296

/-- Right rotation of a 32-bit word. -/
def rotr (k x : Nat) : Nat := w32 (x / 2 ^ k + x * 2 ^ (32 - k))

/-- Right shift of a 32-bit word. -/
def shr (k x : Nat) : Nat := x / 2 ^ k

/-- Bitwise exclusive or (Nat.xor) written as a function. -/
def bxor (a b : Nat) : Nat := a ^^^ b

def bigSigma0 (x : Nat) : Nat := bxor (bxor (rotr 2 x) (rotr 13 x)) (rotr 22 x)
def bigSigma1 (x : Nat) : Nat := bxor (bxor (rotr 6 x) (rotr 11 x)) (rotr 25 x)
def smallSigma0 (x : Nat) : Nat := bxor (bxor (rotr 7 x) (rotr 18 x)) (shr 3 x)
def smallSigma1 (x : Nat) : Nat := bxor (bxor (rotr 17 x) (rotr 19 x)) (shr 10 x)
def chFn (x y z : Nat) : Nat := bxor (x &&& y) ((w32 (4294967295 - x)) &&& z)
def majFn (x y z : Nat) : Nat := bxor (bxor (x &&& y) (x &&& z)) (y &&& z)

/-- The 64 SHA-256 round constants. -/
def sha256K : List Nat :=
  [1116352408, 1899447441, 3049323471, 3921009573, 961987163, 1508970993,
   2453635748, 2870763221, 3624381080, 310598401, 607225278, 1426881987,
   1925078388, 2162078206, 2614888103, 3248222580, 3835390401, 4022224774,
   264347078, 604807628, 770255983, 1249150122, 1555081692, 1996064986,
   2554220882, 2821834349, 2952996808, 3210313671, 3336571891, 3584528711,
   113926993, 338241895, 666307205, 773529912, 1294757372, 1396182291,
   1695183700, 1986661051, 2177026350, 2456956037, 2730485921, 2820302411,
   3259730800, 3345764771, 3516065817, 3600352804, 4094571909, 275423344,
   430227734, 506948616, 659060556, 883997877, 958139571, 1322822218,
   1537002063, 1747873779, 1955562222, 2024104815, 2227730452, 2361852424,
   2428436474, 2756734187, 3204031479, 3329325298]

/-- Big-endian serialisation of n into k bytes. -/
def toBE (k n : Nat) : List Nat :=
  (List.range k).map (fun i => n / 2 ^ (8 * (k - 1 - i)) % 256)

/-- Big-endian 32-bit word from four bytes. -/
def wordOfBytes (a b c d : Nat) : Nat := ((a * 256 + b) * 256 + c) * 256 + d

/-- SHA-256 padding: append 0x80, zeros, and the 64-bit bit length. -/
def sha256Pad (msg : List Nat) : List Nat :=
  let len := msg.length
  let zeros := (119 - len % 64) % 64
  msg ++ [128] ++ List.replicate zeros 0 ++ toBE 8 (8 * len)

/-- Split a byte list into 64-byte blocks, with the list length as
structural fuel so that the definition reduces in the kernel. -/
def blocks64Go : Nat → List Nat → List (List Nat)
  | 0, _ => []
  | _, [] => []
  | fuel + 1, l => l.take 64 :: blocks64Go fuel (l.drop 64)

/-- Split a byte list into 64-byte blocks. -/
def blocks64 (l : List Nat) : List (List Nat) := blocks64Go l.length l

/-- The first sixteen 32-bit words of a 64-byte block. -/
def blockWords (blk : List Nat) : List Nat :=
  (List.range 16).map (fun i =>
    wordOfBytes (blk.getD (4 * i) 0) (blk.getD (4 * i + 1) 0)
      (blk.getD (4 * i + 2) 0) (blk.getD (4 * i + 3) 0))

def wordAt (w : List Nat) (i : Nat) : Nat := w.getD i 0

/-- Extend the message schedule by one word. -/
def schedStep (w : List Nat) : List Nat :=
  let i := w.length
  w ++ [w32 (smallSigma1 (wordAt w (i - 2)) + wordAt w (i - 7) +
             smallSigma0 (wordAt w (i - 15)) + wordAt w (i - 16))]

/-- Iterate the schedule extension n times. -/
def extendSched (w : List Nat) : Nat → List Nat
  | 0 => w
  | n + 1 => schedStep (extendSched w n)

/-- The working variables of the SHA-256 compression loop. -/
structure Hash8 where
  a : Nat
  b : Nat
  c : Nat
  d : Nat
  e : Nat
  f : Nat
  g : Nat
  h : Nat
deriving Repr, DecidableEq

/-- SHA-256 initial hash value. -/
def sha256H0 : Hash8 :=
  ⟨1779033703, 3144134277, 1013904242, 2773480762,
   1359893119, 2600822924, 528734635, 1541459225⟩

/-- One round of the SHA-256 compression function. -/
def sha256Round (st : Hash8) (kw : Nat × Nat) : Hash8 :=
  let t1 := w32 (st.h + bigSigma1 st.e + chFn st.e st.f st.g + kw.1 + kw.2)
  let t2 := w32 (bigSigma0 st.a + majFn st.a st.b st.c)
  ⟨w32 (t1 + t2), st.a, st.b, st.c, w32 (st.d + t1), st.e, st.f, st.g⟩

/-- Process one 64-byte block. -/
def sha256Block (st : Hash8) (blk : List Nat) : Hash8 :=
  let w := extendSched (blockWords blk) 48
  let r := (sha256K.zip w).foldl sha256Round st
  ⟨w32 (st.a + r.a), w32 (st.b + r.b), w32 (st.c + r.c), w32 (st.d + r.d),
   w32 (st.e + r.e), w32 (st.f + r.f), w32 (st.g + r.g), w32 (st.h + r.h)⟩

/-- Serialise the final state as 32 bytes. -/
def hashBytes (st : Hash8) : List Nat :=
  toBE 4 st.a ++ toBE 4 st.b ++ toBE 4 st.c ++ toBE 4 st.d ++
  toBE 4 st.e ++ toBE 4 st.f ++ toBE 4 st.g ++ toBE 4 st.h

/-- SHA-256 digest of a byte list. -/
def sha256 (msg : List Nat) : List Nat :=
  hashBytes ((blocks64 (sha256Pad msg)).foldl sha256Block sha256H0)

/-! ### HMAC-SHA256, hex digest, base64 -/

/-- HMAC-SHA256 (RFC 2104) with a 64-byte block size. -/
def hmacSha256 (key msg : List Nat) : List Nat :=
  let k0 := if key.length > 64 then sha256 key else key
  let kpad := k0 ++ List.replicate (64 - k0.length) 0
  let ipad := kpad.map (fun x => bxor x 54)
  let opad := kpad.map (fun x => bxor x 92)
  sha256 (opad ++ sha256 (ipad ++ msg))

/-- Lowercase hex digit for a nibble. -/
def hexDigitChar (n : Nat) : Char :=
  match n with
  | 0 => '0' | 1 => '1' | 2 => '2' | 3 => '3' | 4 => '4'
  | 5 => '5' | 6 => '6' | 7 => '7' | 8 => '8' | 9 => '9'
  | 10 => 'a' | 11 => 'b' | 12 => 'c' | 13 => 'd' | 14 => 'e'
  | _ => 'f'

/-- Python hexdigest(): two lowercase hex digits per byte. -/
def hexDigest (bytes : List Nat) : List Char :=
  bytes.flatMap (fun x => [hexDigitChar (x / 16), hexDigitChar (x % 16)])

/-- The base64 alphabet character for a 6-bit value. -/
def b64Char (n : Nat) : Char :=
  "ABCDEFGHIJKLMNOPQRSTUVWXYZabcdefghijklmnopqrstuvwxyz0123456789+/".data.getD n 'A'

/-- Standard base64 encoding of a byte list (Python base64.b64encode). -/
def base64Encode : List Nat → List Char
  | [] => []
  | [x] =>
    [b64Char (x / 4), b64Char (x % 4 * 16), '=', '=']
  | [x, y] =>
    [b64Char (x / 4), b64Char (x % 4 * 16 + y / 16), b64Char (y % 16 * 4), '=']
  | x :: y :: z :: rest =>
    b64Char (x / 4) :: b64Char (x % 4 * 16 + y / 16) ::
    b64Char (y % 16 * 4 + z / 64) :: b64Char (z % 64) :: base64Encode rest

/-! ### Signature verifiers (webhooks.py lines 333-343 and 498-506) -/

/-- Python item.split(sep, 1) when it succeeds: the part before the first
occurrence of sep and the part after it. none when sep does not occur, in
which case dict() raises ValueError in the source. -/
def splitOnceChar (sep : Char) : List Char → Option (List Char × List Char)
  | [] => none
  | x :: xs =>
    if x = sep then some ([], xs)
    else (splitOnceChar sep xs).map (fun p => (x :: p.1, p.2))

/-- Python s.split(sep) for a one-character separator. -/
def splitAllChar (sep : Char) : List Char → List (List Char)
  | [] => [[]]
  | x :: xs =>
    match splitAllChar sep xs with
    | [] => [[]]
    | y :: ys => if x = sep then [] :: y :: ys else (x :: y) :: ys

/-- Sequence an option-producing function over a list, failing as a whole
when any element fails (the ValueError path of dict()). -/
def mapMOpt {α β : Type} (f : α → Option β) : List α → Option (List β)
  | [] => some []
  | x :: xs =>
    match f x with
    | none => none
    | some y => (mapMOpt f xs).map (fun ys => y :: ys)

/-- Model of dict(item.split("=", 1) for item in sig_header.split(",")):
none when some item has no "=" (ValueError in the source). -/
def parseSigHeader (h : List Char) : Option (List (List Char × List Char)) :=
  mapMOpt (splitOnceChar '=') (splitAllChar ',' h)

/-- Python dict lookup with default "": for duplicate keys the last value
wins, as in a dict built from a sequence of pairs. -/
def dictGetLast (pairs : List (List Char × List Char)) (k : List Char) :
    List Char :=
  ((pairs.filter (fun kv => kv.1 == k)).getLast?.map (fun kv => kv.2)).getD []

/-- Embedding of _verify_stripe_signature: HMAC-SHA256 over
timestamp.payload, hex encoded, compared with the v1 component of the
comma-separated key=value header. Any parse failure yields false (the
try/except in the source). -/
def _verify_stripe_signature (payload : List Nat) (sig_header : String)
    (secret : String) : Bool :=
  match parseSigHeader sig_header.data with
  | none => false
  | some parts =>
    let timestamp := dictGetLast parts ['t']
    let signature := dictGetLast parts ['v', '1']
    let signed_payload := utf8 ⟨timestamp⟩ ++ [46] ++ payload
    let expected := hexDigest (hmacSha256 (utf8 secret) signed_payload)
    expected == signature

/-- Embedding of _verify_typeform_signature: base64 HMAC-SHA256 of the raw
body, compared against the header with a sha256= marker in front. -/
def _verify_typeform_signature (payload : List Nat) (sig_header : String)
    (secret : String) : Bool :=
  let expected := base64Encode (hmacSha256 (utf8 secret) payload)
  ("sha256=".data ++ expected) == sig_header.data

/-- A well-formed Stripe-Signature header carrying timestamp t and signature
sig, as the provider builds it. -/
def mkSigHeader (t sig : String) : String :=
  "t=" ++ t ++ ",v1=" ++ sig

/-! ### Misc Python library models -/

/-- Model of Python str.upper for one ASCII character. -/
def pyCharUpper (c : Char) : Char :=
  if 97 ≤ c.toNat ∧ c.toNat ≤ 122 then Char.ofNat (c.toNat - 32) else c

/-- Model of Python str.upper. -/
def pyUpper (s : String) : String := ⟨s.data.map pyCharUpper⟩

def pyIntOfDigits (l : List Char) : Nat :=
  l.foldl (fun acc c => acc * 10 + (c.toNat - 48)) 0

def digitsOk (l : List Char) : Bool := !l.isEmpty && l.all Char.isDigit

/-- Model of Python int(str): optional sign and decimal digits, surrounded by
optional whitespace. -/
def pyIntParse (s : String) : Option Int :=
  match stripChars s.data with
  | '-' :: rest => if digitsOk rest then some (-(pyIntOfDigits rest : Int)) else none
  | '+' :: rest => if digitsOk rest then some ((pyIntOfDigits rest : Int)) else none
  | l => if digitsOk l then some ((pyIntOfDigits l : Int)) else none

/-- Model of Python float(str) restricted to integral literals; fractional
literals are outside the integer value model and parse as failures here.
No verified claim depends on a fractional confidence value. -/
def pyFloatParse (s : String) : Option Int := pyIntParse s

/-- Model of Python int(value) over a scalar: bool is an int subclass. -/
def pyInt (v : JVal) : Option Int :=
  match v with
  | .n k => some k
  | .b b => some (if b then 1 else 0)
  | .s s => pyIntParse s

def digit2 (a b : Char) : Option Nat :=
  if a.isDigit && b.isDigit then some ((a.toNat - 48) * 10 + (b.toNat - 48))
  else none

/-- Shape check for date.fromisoformat (YYYY-MM-DD); day-in-month refinement
is approximated by day at most 31. -/
def isoDateOk : List Char → Bool
  | [y1, y2, y3, y4, '-', m1, m2, '-', d1, d2] =>
    (y1.isDigit && y2.isDigit && y3.isDigit && y4.isDigit) &&
    (match digit2 m1 m2, digit2 d1 d2 with
     | some m, some d =>
       decide (1 ≤ m) && decide (m ≤ 12) && decide (1 ≤ d) && decide (d ≤ 31)
     | _, _ => false)
  | _ => false

def isoTimeOk : List Char → Bool
  | [h1, h2, ':', m1, m2] =>
    (match digit2 h1 h2, digit2 m1 m2 with
     | some hh, some mm => decide (hh ≤ 23) && decide (mm ≤ 59)
     | _, _ => false)
  | [h1, h2, ':', m1, m2, ':', s1, s2] =>
    (match digit2 h1 h2, digit2 m1 m2, digit2 s1 s2 with
     | some hh, some mm, some ss =>
       decide (hh ≤ 23) && decide (mm ≤ 59) && decide (ss ≤ 59)
     | _, _, _ => false)
  | _ => false

def isoOffsetOk : List Char → Bool
  | [] => true
  | sg :: rest =>
    (sg == '+' || sg == '-') &&
    (match rest with
     | [h1, h2, ':', m1, m2] =>
       (match digit2 h1 h2, digit2 m1 m2 with
        | some hh, some mm => decide (hh ≤ 23) && decide (mm ≤ 59)
        | _, _ => false)
     | _ => false)

/-- Shape check for datetime.fromisoformat (date, optional time, optional
offset; fractional seconds omitted from the model). -/
def isoDateTimeOk (l : List Char) : Bool :=
  match l.drop 10 with
  | [] => isoDateOk l
  | sep :: rest =>
    isoDateOk (l.take 10) && (sep == 'T' || sep == ' ') &&
    ((isoTimeOk (rest.take 5) && isoOffsetOk (rest.drop 5)) ||
     (isoTimeOk (rest.take 8) && isoOffsetOk (rest.drop 8)))

/-- Model of date.fromisoformat: the validated date, kept as its string. -/
def pyDateFromIso (s : String) : Option String :=
  if isoDateOk s.data then some s else none

/-- Model of datetime.fromisoformat: the validated value, kept as its
string. -/
def pyDateTimeFromIso (s : String) : Option String :=
  if isoDateTimeOk s.data then some s else none

/-- Python s.replace("Z", "+00:00"). -/
def replaceZ (s : String) : String :=
  ⟨s.data.flatMap (fun c => if c = 'Z' then "+00:00".data else [c])⟩

/-- Python substring test (needle in haystack). -/
def isSubstr (needle hay : List Char) : Bool :=
  (List.range (hay.length + 1)).any
    (fun i => (hay.drop i).take needle.length == needle)

/-! ### Data model

Structures follow src/backend/app/models.py. The ScholarshipApplication
declaration and the Sale.scholarship, Product.kit_rsvp_tag,
Product.kit_onboarded_tag, Product.completion_survey_form_id and
Product.completion_survey_field_map columns are referenced by the routers but
their declarations are not under src; those parts are modelled from the spec
(sections 3 and 4.5). Columns never touched by the webhook core are omitted.
Enrichment attributes parsed from survey answers are stored as tagged scalar
values, and datetime columns as their validated ISO strings. JSON
field-mapping configuration documents appear pre-parsed as association
lists; an invalid configured document behaves as an absent one, exactly as
the json.JSONDecodeError handler in the source makes it. -/

structure Product where
  id : Nat
  product_id : String
  product_name : String
  kit_tag : Option String
  stripe_price_id : Option String
  typeform_form_id : Option String
  typeform_field_map : Option (List (String × String))
  kit_rsvp_tag : Option String
  kit_onboarded_tag : Option String
  completion_survey_form_id : Option String
  completion_survey_field_map : Option (List (String × String))
deriving Repr, DecidableEq

structure Student where
  id : Nat
  student_number : Nat
  first_name : String
  last_name : String
  email : String
  preferred_name : Option JVal
  alternative_email : Option JVal
  country : Option JVal
  timezone : Option JVal
  closest_city : Option JVal
  dob : Option JVal
  gender : Option JVal
  learn_about_course : Option JVal
  consent_images : Option JVal
  consent_photo_on_site : Option JVal
  what_made_you_join : Option JVal
  get_from : Option JVal
  here_for : Option JVal
  claude_confidence_level : Option JVal
  onboarding_date : Option String
deriving Repr, DecidableEq

structure Enrollment where
  id : Nat
  enrollment_id : String
  status : Option String
  source : Option String
  student_id : Nat
  product_id : Nat
  sale_id : Option Nat
  biggest_win : Option JVal
  three_things_learned : Option JVal
  confidence_after : Option Int
  satisfaction : Option JVal
  recommend_score : Option Int
  testimonial : Option JVal
  improvement_suggestion : Option JVal
  interest_longer_program : Option JVal
  followup_topics : Option JVal
  beginner_friendly_rating : Option JVal
  expected_learning_not_covered : Option JVal
  anything_else : Option JVal
  transformational_score : Option Int
  delivered_on_promise_score : Option Int
  survey_response_type : Option String
  survey_submit_date : Option String
deriving Repr, DecidableEq

structure Sale where
  id : Nat
  sale_id : String
  buyer_email : String
  buyer_name : Option String
  product_id : Nat
  amount_cents : Int
  currency : String
  quantity : Nat
  status : String
  source : Option String
  stripe_checkout_session_id : Option String
  stripe_payment_intent_id : Option String
  purchase_date : Option String
  scholarship : Bool
deriving Repr, DecidableEq

/-- Modelled from the spec: the ScholarshipApplication model declaration is
not under src (only its callers are). Fields follow section 3 of the spec and
the attributes its callers touch; the scholarship auto-match flips the
enrolled flag. -/
structure ScholarshipApplication where
  id : Nat
  email : String
  first_name : String
  last_name : String
  product_id : Option Nat
  is_subscriber : Option Bool
  amount_willing_to_pay : Option JVal
  circumstances : Option JVal
  hopes : Option JVal
  best_case_impact : Option JVal
  status : String
  enrolled : Bool
  applied_at : Option String
deriving Repr, DecidableEq

/-- The backing store: the four webhook-relevant tables plus autoincrement
counters standing for the surrogate-id sequences. -/
structure DB where
  products : List Product
  students : List Student
  enrollments : List Enrollment
  sales : List Sale
  apps : List ScholarshipApplication
  nextStudentId : Nat
  nextEnrollmentId : Nat
  nextSaleId : Nat
  nextAppId : Nat
deriving Repr, DecidableEq

/-- The process-wide secrets read from the environment at import time. -/
structure Config where
  kitWebhookSecret : String
  stripeWebhookSecret : String
  typeformWebhookSecret : String
deriving Repr, DecidableEq

/-- Oracle for the outbound Kit tagging side effect
(kit_tag_subscriber_by_email): an HTTP call whose boolean outcome is an
input of the model and which never touches the store. -/
structure Ext where
  kitTagResult : String → String → Bool

structure HErr where
  code : Nat
  detail : String
deriving Repr, DecidableEq

/-- The JSON object _create_enrollment returns; absent keys are none. -/
structure EnrollResult where
  status : String
  enrollment_id : String
  student_id : Option Nat
  product_id : Option Nat
  kit_rsvp_tagged : Option Bool
deriving Repr, DecidableEq

/-- The JSON status objects returned by the webhook handlers. -/
inductive Resp where
  | enroll (r : EnrollResult)
  | ignored (event_type : Option String)
  | typeformEnroll (r : EnrollResult) (enriched_fields : List String)
      (kit_tagged : Option Bool)
  | surveySaved (enrollment_id : String) (updated_fields : List String)
  | applicationReceived (id : Nat) (email : String) (product : Option String)
deriving Repr, DecidableEq

/-! ### Shared: find-or-create student and create enrollment -/

/-- Model of the max(student_number) query with its `or 0` default. -/
def maxStudentNumber (l : List Student) : Nat :=
  l.foldr (fun s m => Nat.max s.student_number m) 0

/-- Embedding of _find_or_create_student: case-insensitive lookup by
normalised email; creates with the next sequence number when absent. -/
def _find_or_create_student (db : DB) (email first_name last_name : String) :
    Student × DB :=
  let clean_email := normEmail email
  match db.students.find? (fun s => pyLower s.email == clean_email) with
  | some student => (student, db)
  | none =>
    let max_num := maxStudentNumber db.students
    let student : Student :=
      { id := db.nextStudentId, student_number := max_num + 1
        first_name := first_name, last_name := last_name, email := clean_email
        preferred_name := none, alternative_email := none, country := none
        timezone := none, closest_city := none, dob := none, gender := none
        learn_about_course := none, consent_images := none
        consent_photo_on_site := none, what_made_you_join := none
        get_from := none, here_for := none, claude_confidence_level := none
        onboarding_date := none }
    (student,
     { db with students := db.students ++ [student]
               nextStudentId := db.nextStudentId + 1 })

/-- Embedding of _create_enrollment: idempotent on the natural key
student.email + underscore + product slug; backfills a missing sale link on
the existing row; otherwise inserts and fires the best-effort Kit RSVP
tag. -/
def _create_enrollment (ext : Ext) (db : DB) (student : Student)
    (product : Product) (status : String) (source : Option String)
    (sale_id : Option Nat) : EnrollResult × DB :=
  let enrollment_id := student.email ++ "_" ++ product.product_id
  match db.enrollments.find? (fun e => e.enrollment_id == enrollment_id) with
  | some existing =>
    let backfill := fun (e : Enrollment) => { e with sale_id := sale_id }
    let linked :=
      updateFirst (fun e => e.enrollment_id == enrollment_id) backfill
        db.enrollments
    let db :=
      if optNatTruthy sale_id && !optNatTruthy existing.sale_id then
        { db with enrollments := linked }
      else db
    ({ status := "already_enrolled", enrollment_id := enrollment_id
       student_id := none, product_id := none, kit_rsvp_tagged := none }, db)
  | none =>
    let enrollment : Enrollment :=
      { id := db.nextEnrollmentId, enrollment_id := enrollment_id
        status := some status, source := source, student_id := student.id
        product_id := product.id, sale_id := sale_id
        biggest_win := none, three_things_learned := none
        confidence_after := none, satisfaction := none
        recommend_score := none, testimonial := none
        improvement_suggestion := none, interest_longer_program := none
        followup_topics := none, beginner_friendly_rating := none
        expected_learning_not_covered := none, anything_else := none
        transformational_score := none, delivered_on_promise_score := none
        survey_response_type := none, survey_submit_date := none }
    let db := { db with enrollments := db.enrollments ++ [enrollment]
                        nextEnrollmentId := db.nextEnrollmentId + 1 }
    let kit_rsvp_tagged :=
      match truthyStr product.kit_rsvp_tag with
      | some tag => some (ext.kitTagResult student.email tag)
      | none => none
    ({ status := "enrolled", enrollment_id := enrollment_id
       student_id := some student.id, product_id := some product.id
       kit_rsvp_tagged := kit_rsvp_tagged }, db)

/-! ### Typeform answers and field mapping -/

/-- A contact-bundle sub-object of a contact_info answer. -/
structure ContactInfo where
  first_name : Option String
  last_name : Option String
  email : Option String
deriving Repr, DecidableEq

/-- One element of form_response.answers. Absent JSON keys are none; a null
value is conflated with an absent key. A choice object carries its label
directly, as Typeform emits it. -/
structure TFAnswer where
  type : String
  field_ref : String
  field_id : String
  email : Option String
  text : Option String
  choice : Option String
  choices : Option (List String)
  boolean : Option Bool
  date : Option String
  number : Option Int
  phone_number : Option String
  url : Option String
  file_url : Option String
  contact_info : Option ContactInfo
  contacts : Option ContactInfo
deriving Repr, DecidableEq

structure TFFormResponse where
  form_id : Option String
  answers : List TFAnswer
  submitted_at : Option String
deriving Repr, DecidableEq

/-- The inbound Typeform webhook envelope. -/
structure TFPayload where
  event_type : Option String
  form_response : TFFormResponse
deriving Repr, DecidableEq

/-- Embedding of the fallback branch of _extract_typeform_answer: probe the
common value keys in the fixed order of the source. -/
def tfFallback (a : TFAnswer) : Option JVal :=
  match a.text with
  | some t => some (.s t)
  | none =>
  match a.email with
  | some e => some (.s e)
  | none =>
  match a.number with
  | some n => some (.n n)
  | none =>
  match a.boolean with
  | some b => some (.b b)
  | none =>
  match a.date with
  | some d => some (.s d)
  | none =>
  match a.choice with
  | some c => some (.s c)
  | none =>
  match a.url with
  | some u => some (.s u)
  | none => none

/-- Embedding of _extract_typeform_answer: dispatch on the declared answer
type; multi-choice labels join into a comma-separated string. -/
def _extract_typeform_answer (a : TFAnswer) : Option JVal :=
  if a.type == "email" then a.email.map .s
  else if a.type == "text" then a.text.map .s
  else if a.type == "choice" then a.choice.map .s
  else if a.type == "choices" then
    (match a.choices.getD [] with
     | [] => none
     | labels => some (.s (", ".intercalate labels)))
  else if a.type == "boolean" then a.boolean.map .b
  else if a.type == "date" then a.date.map .s
  else if a.type == "number" || a.type == "opinion_scale" then a.number.map .n
  else if a.type == "phone_number" then a.phone_number.map .s
  else if a.type == "url" then a.url.map .s
  else if a.type == "file_url" then a.file_url.map .s
  else tfFallback a

/-- The _ENROLLMENT_SURVEY_FIELDS set of webhooks.py. -/
def _ENROLLMENT_SURVEY_FIELDS : List String :=
  ["biggest_win", "three_things_learned", "confidence_after", "satisfaction",
   "recommend_score", "testimonial", "improvement_suggestion",
   "interest_longer_program", "followup_topics", "beginner_friendly_rating",
   "expected_learning_not_covered", "anything_else",
   "transformational_score", "delivered_on_promise_score"]

/-- The _STUDENT_FIELDS set of webhooks.py. -/
def _STUDENT_FIELDS : List String :=
  ["first_name", "last_name", "preferred_name", "email", "alternative_email",
   "country", "timezone", "closest_city", "dob", "gender",
   "learn_about_course", "consent_images", "consent_photo_on_site",
   "what_made_you_join", "get_from", "here_for", "claude_confidence_level"]

/-- The hardcoded _SCHOLARSHIP_FIELD_MAP of webhooks.py. -/
def _SCHOLARSHIP_FIELD_MAP : List (String × String) :=
  [("BDW3qHqGK2jN", "contact_info"),
   ("tL7F7QZoBHNt", "is_subscriber"),
   ("AKZmKw95FZnv", "course_name"),
   ("qkEtJzfrekMw", "amount_willing_to_pay"),
   ("tSu0EbTN0f3n", "circumstances"),
   ("cr4NgV8ICSTY", "hopes"),
   ("G18vXstzfsDw", "best_case_impact")]

/-- The body of the per-answer loop of _parse_typeform_answers: explicit map
first, then field-name convention, then email auto-detection, then the
name and full_name convention. -/
def typeformStep (field_map : Option (List (String × String)))
    (result : List (String × JVal)) (answer : TFAnswer) :
    List (String × JVal) :=
  let field_ref := answer.field_ref
  match _extract_typeform_answer answer with
  | none => result
  | some value =>
    match field_map.bind (fun m => smGet m field_ref) with
    | some target =>
      if target == "name" || target == "full_name" then
        let fl := _split_name (jvalStr value)
        dictSet (dictSet result "first_name" (.s fl.1)) "last_name" (.s fl.2)
      else dictSet result target value
    | none =>
      if _STUDENT_FIELDS.contains field_ref then dictSet result field_ref value
      else if answer.type == "email" && !(dictHas result "email") then
        dictSet result "email" value
      else if field_ref == "name" || field_ref == "full_name" then
        let fl := _split_name (jvalStr value)
        dictSet (dictSet result "first_name" (.s fl.1)) "last_name" (.s fl.2)
      else result

/-- Embedding of _parse_typeform_answers. -/
def _parse_typeform_answers (form_response : TFFormResponse)
    (field_map : Option (List (String × String))) : List (String × JVal) :=
  form_response.answers.foldl (typeformStep field_map) []

/-- The body of the per-answer loop of _parse_completion_answers. -/
def completionStep (field_map : Option (List (String × String)))
    (result : List (String × JVal)) (answer : TFAnswer) :
    List (String × JVal) :=
  let field_ref := answer.field_ref
  match _extract_typeform_answer answer with
  | none => result
  | some value =>
    match field_map.bind (fun m => smGet m field_ref) with
    | some target => dictSet result target value
    | none =>
      if _ENROLLMENT_SURVEY_FIELDS.contains field_ref then
        dictSet result field_ref value
      else if answer.type == "email" && !(dictHas result "email") then
        dictSet result "email" value
      else result

/-- Embedding of _parse_completion_answers. -/
def _parse_completion_answers (form_response : TFFormResponse)
    (field_map : Option (List (String × String))) : List (String × JVal) :=
  form_response.answers.foldl (completionStep field_map) []

/-! ### Enrichment: setattr dispatch over the declared field sets -/

/-- setattr(student, field, value) for the enrichable student columns. -/
def setStudentAttr (st : Student) (field : String) (v : JVal) : Student :=
  if field == "preferred_name" then { st with preferred_name := some v }
  else if field == "alternative_email" then { st with alternative_email := some v }
  else if field == "country" then { st with country := some v }
  else if field == "timezone" then { st with timezone := some v }
  else if field == "closest_city" then { st with closest_city := some v }
  else if field == "dob" then { st with dob := some v }
  else if field == "gender" then { st with gender := some v }
  else if field == "learn_about_course" then { st with learn_about_course := some v }
  else if field == "consent_images" then { st with consent_images := some v }
  else if field == "consent_photo_on_site" then { st with consent_photo_on_site := some v }
  else if field == "what_made_you_join" then { st with what_made_you_join := some v }
  else if field == "get_from" then { st with get_from := some v }
  else if field == "here_for" then { st with here_for := some v }
  else if field == "claude_confidence_level" then { st with claude_confidence_level := some v }
  else st

/-- The body of the enrichment loop in typeform_submission, including the
dob and claude_confidence_level coercions whose failure drops only that
attribute. -/
def typeformEnrichStep (acc : Student × List String) (kv : String × JVal) :
    Student × List String :=
  let st := acc.1
  let upd := acc.2
  let field := kv.1
  let value := kv.2
  if _STUDENT_FIELDS.contains field &&
      !(field == "email" || field == "first_name" || field == "last_name") then
    if field == "dob" then
      match value with
      | .s s =>
        match pyDateFromIso s with
        | some d => (setStudentAttr st field (.s d), upd ++ [field])
        | none => acc
      | v => (setStudentAttr st field v, upd ++ [field])
    else if field == "claude_confidence_level" then
      match value with
      | .s s =>
        match pyFloatParse s with
        | some k => (setStudentAttr st field (.n k), upd ++ [field])
        | none => acc
      | v => (setStudentAttr st field v, upd ++ [field])
    else (setStudentAttr st field value, upd ++ [field])
  else acc

/-- setattr(enrollment, field, value) for the non-integer survey columns. -/
def setEnrollmentAttr (e : Enrollment) (field : String) (v : JVal) :
    Enrollment :=
  if field == "biggest_win" then { e with biggest_win := some v }
  else if field == "three_things_learned" then { e with three_things_learned := some v }
  else if field == "satisfaction" then { e with satisfaction := some v }
  else if field == "testimonial" then { e with testimonial := some v }
  else if field == "improvement_suggestion" then { e with improvement_suggestion := some v }
  else if field == "interest_longer_program" then { e with interest_longer_program := some v }
  else if field == "followup_topics" then { e with followup_topics := some v }
  else if field == "beginner_friendly_rating" then { e with beginner_friendly_rating := some v }
  else if field == "expected_learning_not_covered" then { e with expected_learning_not_covered := some v }
  else if field == "anything_else" then { e with anything_else := some v }
  else e

/-- setattr(enrollment, field, int(value)) for the integer survey scores. -/
def setEnrollmentIntAttr (e : Enrollment) (field : String) (k : Int) :
    Enrollment :=
  if field == "confidence_after" then { e with confidence_after := some k }
  else if field == "recommend_score" then { e with recommend_score := some k }
  else if field == "transformational_score" then { e with transformational_score := some k }
  else if field == "delivered_on_promise_score" then { e with delivered_on_promise_score := some k }
  else e

/-- The body of the survey-update loop in typeform_completion_survey. -/
def completionEnrichStep (acc : Enrollment × List String)
    (kv : String × JVal) : Enrollment × List String :=
  let e := acc.1
  let upd := acc.2
  let field := kv.1
  let value := kv.2
  if _ENROLLMENT_SURVEY_FIELDS.contains field then
    if field == "confidence_after" || field == "recommend_score" ||
        field == "transformational_score" ||
        field == "delivered_on_promise_score" then
      match pyInt value with
      | some k => (setEnrollmentIntAttr e field k, upd ++ [field])
      | none => acc
    else (setEnrollmentAttr e field value, upd ++ [field])
  else acc

/-! ### Handlers: Kit and generic form -/

structure KitSubscriber where
  id : Nat
  first_name : Option String
  email_address : String
deriving Repr, DecidableEq

structure KitPayload where
  subscriber : KitSubscriber
deriving Repr, DecidableEq

/-- Embedding of the kit_tag_added handler: optional shared-secret check,
product lookup by kit_tag, then find-or-create plus enrollment. The
provided_secret argument is the X-Kit-Webhook-Secret header value, empty
when absent. -/
def kit_tag_added (cfg : Config) (ext : Ext) (kit_tag : String)
    (payload : KitPayload) (provided_secret : String) (db : DB) :
    Except HErr Resp × DB :=
  if cfg.kitWebhookSecret ≠ "" ∧ provided_secret ≠ cfg.kitWebhookSecret then
    (.error ⟨401, "Invalid webhook secret"⟩, db)
  else
    match db.products.find? (fun p => p.kit_tag == some kit_tag) with
    | none => (.error ⟨404, "No product with kit_tag " ++ kit_tag⟩, db)
    | some product =>
      let fl := _split_name (payload.subscriber.first_name.getD "")
      let sdb := _find_or_create_student db payload.subscriber.email_address
        fl.1 fl.2
      let rdb := _create_enrollment ext sdb.2 sdb.1 product
        "Paying Customer (Full-fee)" (some "kit") none
      (.ok (.enroll rdb.1), rdb.2)

structure FormPayload where
  email : String
  first_name : Option String
  last_name : Option String
  name : Option String
deriving Repr, DecidableEq

/-- Embedding of the form_submission handler (generic form webhook). -/
def form_submission (cfg : Config) (ext : Ext) (product_id : String)
    (payload : FormPayload) (provided_secret : String) (db : DB) :
    Except HErr Resp × DB :=
  if cfg.kitWebhookSecret ≠ "" ∧ provided_secret ≠ cfg.kitWebhookSecret then
    (.error ⟨401, "Invalid webhook secret"⟩, db)
  else
    match db.products.find? (fun p => p.product_id == product_id) with
    | none => (.error ⟨404, "No product with product_id " ++ product_id⟩, db)
    | some product =>
      let fl :=
        match truthyStr payload.first_name with
        | some f => (f, payload.last_name.getD "")
        | none =>
          match truthyStr payload.name with
          | some n => _split_name n
          | none => ("Unknown", "")
      let sdb := _find_or_create_student db payload.email fl.1 fl.2
      let rdb := _create_enrollment ext sdb.2 sdb.1 product
        "Paying Customer (Full-fee)" (some "form") none
      (.ok (.enroll rdb.1), rdb.2)

/-! ### Handler: Stripe checkout.session.completed -/

structure LineItem where
  price_id : Option String
deriving Repr, DecidableEq

/-- The data.object of a checkout.session.completed event, with only the
keys the handler reads. payment_intent is none when absent or when the JSON
value is not a string (the isinstance check in the source). -/
structure StripeSession where
  id : String
  customer_email : Option String
  customer_details_email : Option String
  customer_details_name : Option String
  metadata_price_id : Option String
  metadata_product_id : Option String
  line_items : List LineItem
  amount_total : Option Int
  currency : Option String
  payment_intent : Option String
deriving Repr, DecidableEq

structure StripeEvent where
  type : Option String
  session : StripeSession
deriving Repr, DecidableEq

/-- The price-id resolution of the handler: metadata price_id first, else
the first line item. -/
def resolveStripePriceId (session : StripeSession) : Option String :=
  match truthyStr session.metadata_price_id with
  | some pid => some pid
  | none =>
    match session.line_items with
    | [] => none
    | li :: _ => li.price_id

/-- The product resolution of the handler: metadata product_id first, then
the resolved price id against stripe_price_id. -/
def resolveStripeProduct (db : DB) (session : StripeSession) :
    Option Product :=
  let byMeta :=
    match truthyStr session.metadata_product_id with
    | some mpid => db.products.find? (fun p => p.product_id == mpid)
    | none => none
  match byMeta with
  | some p => some p
  | none =>
    match truthyStr (resolveStripePriceId session) with
    | some pid => db.products.find? (fun p => p.stripe_price_id == some pid)
    | none => none

/-- The predicate of the accepted-scholarship lookup in stripe_checkout. -/
def scholarshipMatch (clean_buyer_email : String) (product : Product)
    (a : ScholarshipApplication) : Bool :=
  pyLower a.email == clean_buyer_email && a.product_id == some product.id &&
    a.status == "accepted"

/-- Embedding of the stripe_checkout handler. The event argument is the
parsed JSON of the body; now is the ambient clock value for
datetime.utcnow(). -/
def stripe_checkout (cfg : Config) (ext : Ext) (now : String)
    (body : List Nat) (sig_header : String) (event : StripeEvent) (db : DB) :
    Except HErr Resp × DB :=
  if cfg.stripeWebhookSecret ≠ "" ∧
      _verify_stripe_signature body sig_header cfg.stripeWebhookSecret = false then
    (.error ⟨401, "Invalid Stripe signature"⟩, db)
  else if event.type ≠ some "checkout.session.completed" then
    (.ok (.ignored event.type), db)
  else
    let session := event.session
    match truthyStr (pyOrStr session.customer_email session.customer_details_email) with
    | none => (.error ⟨400, "No customer email in checkout session"⟩, db)
    | some email =>
      let name := session.customer_details_name.getD ""
      match resolveStripeProduct db session with
      | none => (.error ⟨404, "No matching product for this checkout session"⟩, db)
      | some product =>
        let fl := _split_name name
        let sdb := _find_or_create_student db email fl.1 fl.2
        let student := sdb.1
        let db := sdb.2
        let sale_id_str := "stripe_" ++ session.id
        let saledb :=
          match db.sales.find? (fun s => s.sale_id == sale_id_str) with
          | some existing_sale => (existing_sale, db)
          | none =>
            let sale : Sale :=
              { id := db.nextSaleId, sale_id := sale_id_str
                buyer_email := normEmail email
                buyer_name := truthyStr (some name)
                product_id := product.id
                amount_cents := session.amount_total.getD 0
                currency := pyUpper ((truthyStr session.currency).getD "usd")
                quantity := 1, status := "completed", source := some "stripe"
                stripe_checkout_session_id := some session.id
                stripe_payment_intent_id := session.payment_intent
                purchase_date := some now, scholarship := false }
            (sale, { db with sales := db.sales ++ [sale]
                             nextSaleId := db.nextSaleId + 1 })
        let sale := saledb.1
        let db := saledb.2
        let clean_buyer_email := normEmail email
        let flagged :=
          updateFirst (fun s => s.sale_id == sale_id_str)
            (fun s => { s with scholarship := true }) db.sales
        let enrolledApps :=
          updateFirst (scholarshipMatch clean_buyer_email product)
            (fun a => { a with enrolled := true }) db.apps
        let db :=
          match db.apps.find? (scholarshipMatch clean_buyer_email product) with
          | some _ => { db with sales := flagged, apps := enrolledApps }
          | none => db
        let rdb := _create_enrollment ext db student product
          "Paying Customer (Full-fee)" (some "stripe") (some sale.id)
        (.ok (.enroll rdb.1), rdb.2)

/-! ### Handlers: Typeform submission, completion survey, scholarship -/

/-- Embedding of the typeform_submission handler. A truthy non-string email
value would raise a TypeError inside email.lower() in the source; that crash
surfaces as a 500 here. -/
def typeform_submission (cfg : Config) (ext : Ext) (product_id : String)
    (body : List Nat) (sig_header : String) (payload : TFPayload) (db : DB) :
    Except HErr Resp × DB :=
  if cfg.typeformWebhookSecret ≠ "" ∧
      _verify_typeform_signature body sig_header cfg.typeformWebhookSecret = false then
    (.error ⟨401, "Invalid Typeform signature"⟩, db)
  else if payload.event_type ≠ some "form_response" then
    (.ok (.ignored payload.event_type), db)
  else
    let form_response := payload.form_response
    match db.products.find? (fun p => p.product_id == product_id) with
    | none => (.error ⟨404, "No product with product_id " ++ product_id⟩, db)
    | some product =>
      if (truthyStr product.typeform_form_id).isSome ∧
          form_response.form_id ≠ product.typeform_form_id then
        (.error ⟨400, "Form ID mismatch"⟩, db)
      else
        let field_map := product.typeform_field_map
        let parsed0 := _parse_typeform_answers form_response field_map
        let popped := dictPop parsed0 "email"
        match popped.1 with
        | none => (.error ⟨400, "No email found in Typeform response"⟩, db)
        | some ev =>
          if jvalTruthy ev = false then
            (.error ⟨400, "No email found in Typeform response"⟩, db)
          else
            match ev with
            | .s email =>
              let p1 := dictPop popped.2 "first_name"
              let first_name := jvalStr (p1.1.getD (.s "Unknown"))
              let p2 := dictPop p1.2 "last_name"
              let last_name := jvalStr (p2.1.getD (.s ""))
              let parsed := p2.2
              let sdb := _find_or_create_student db email first_name last_name
              let db := sdb.2
              let enriched := parsed.foldl typeformEnrichStep (sdb.1, [])
              let withDate :=
                match form_response.submitted_at with
                | some ts =>
                  match pyDateTimeFromIso (replaceZ ts) with
                  | some d =>
                    ({ enriched.1 with onboarding_date := some d },
                     enriched.2 ++ ["onboarding_date"])
                  | none => enriched
                | none => enriched
              let student := withDate.1
              let updated_fields := withDate.2
              let newStudents :=
                updateFirst (fun s => s.id == student.id) (fun _ => student)
                  db.students
              let db := { db with students := newStudents }
              let kit_tagged :=
                match truthyStr product.kit_onboarded_tag with
                | some tag => some (ext.kitTagResult email tag)
                | none => none
              let rdb := _create_enrollment ext db student product
                "Paying Customer (Full-fee)" (some "typeform") none
              (.ok (.typeformEnroll rdb.1 updated_fields kit_tagged), rdb.2)
            | _ => (.error ⟨500, "TypeError"⟩, db)

/-- Embedding of the typeform_completion_survey handler. -/
def typeform_completion_survey (cfg : Config) (product_id : String)
    (body : List Nat) (sig_header : String) (payload : TFPayload) (db : DB) :
    Except HErr Resp × DB :=
  if cfg.typeformWebhookSecret ≠ "" ∧
      _verify_typeform_signature body sig_header cfg.typeformWebhookSecret = false then
    (.error ⟨401, "Invalid Typeform signature"⟩, db)
  else if payload.event_type ≠ some "form_response" then
    (.ok (.ignored payload.event_type), db)
  else
    let form_response := payload.form_response
    match db.products.find? (fun p => p.product_id == product_id) with
    | none => (.error ⟨404, "No product with product_id " ++ product_id⟩, db)
    | some product =>
      if (truthyStr product.completion_survey_form_id).isSome ∧
          form_response.form_id ≠ product.completion_survey_form_id then
        (.error ⟨400, "Form ID mismatch"⟩, db)
      else
        let field_map := product.completion_survey_field_map
        let parsed0 := _parse_completion_answers form_response field_map
        let popped := dictPop parsed0 "email"
        match popped.1 with
        | none => (.error ⟨400, "No email found in completion survey response"⟩, db)
        | some ev =>
          if jvalTruthy ev = false then
            (.error ⟨400, "No email found in completion survey response"⟩, db)
          else
            match ev with
            | .s email =>
              let parsed := popped.2
              let clean_email := normEmail email
              match db.students.find? (fun s => pyLower s.email == clean_email) with
              | none => (.error ⟨404, "No student found with email " ++ clean_email⟩, db)
              | some student =>
                match db.enrollments.find?
                    (fun e => e.student_id == student.id && e.product_id == product.id) with
                | none =>
                  (.error ⟨404, "No enrollment found for student " ++ clean_email⟩, db)
                | some enrollment0 =>
                  let upd := parsed.foldl completionEnrichStep (enrollment0, [])
                  let updated_fields := upd.2
                  let e1 := { upd.1 with survey_response_type := some "completion" }
                  let enrollment :=
                    match form_response.submitted_at with
                    | some ts =>
                      match pyDateTimeFromIso (replaceZ ts) with
                      | some d => { e1 with survey_submit_date := some d }
                      | none => e1
                    | none => e1
                  let newEnrollments :=
                    updateFirst
                      (fun e => e.student_id == student.id && e.product_id == product.id)
                      (fun _ => enrollment) db.enrollments
                  let db := { db with enrollments := newEnrollments }
                  (.ok (.surveySaved enrollment.enrollment_id updated_fields), db)
            | _ => (.error ⟨500, "TypeError"⟩, db)

/-- The accumulating record of the scholarship answer-parsing loop. -/
structure ScholarshipParsed where
  first_name : Option String
  last_name : Option String
  email : Option String
  is_subscriber : Option Bool
  course_name : Option JVal
  amount_willing_to_pay : Option JVal
  circumstances : Option JVal
  hopes : Option JVal
  best_case_impact : Option JVal
deriving Repr, DecidableEq

def scholarshipParsedInit : ScholarshipParsed :=
  ⟨none, none, none, none, none, none, none, none, none⟩

/-- The body of the answer loop of typeform_scholarship: map the hardcoded
field ids to application attributes. -/
def scholarshipStep (acc : ScholarshipParsed) (answer : TFAnswer) :
    ScholarshipParsed :=
  match smGet _SCHOLARSHIP_FIELD_MAP answer.field_id with
  | none => acc
  | some mapped =>
    if mapped == "contact_info" then
      let ci :=
        match answer.contact_info with
        | some c => c
        | none => (answer.contacts).getD ⟨none, none, none⟩
      { acc with first_name := some (ci.first_name.getD "")
                 last_name := some (ci.last_name.getD "")
                 email := some (ci.email.getD "") }
    else if mapped == "is_subscriber" then
      { acc with is_subscriber := some (answer.boolean.getD false) }
    else if mapped == "course_name" then
      { acc with course_name := _extract_typeform_answer answer }
    else if mapped == "amount_willing_to_pay" then
      { acc with amount_willing_to_pay := _extract_typeform_answer answer }
    else if mapped == "circumstances" then
      { acc with circumstances := _extract_typeform_answer answer }
    else if mapped == "hopes" then
      { acc with hopes := _extract_typeform_answer answer }
    else { acc with best_case_impact := _extract_typeform_answer answer }

/-- Embedding of _fuzzy_match_product: exact lowercase name match first,
then substring containment either way. -/
def _fuzzy_match_product (course_name : String) (db : DB) : Option Product :=
  if course_name == "" then none
  else
    let clean := pyLower (pyStrip course_name)
    match db.products.find? (fun p => pyLower p.product_name == clean) with
    | some p => some p
    | none =>
      db.products.find? (fun p =>
        isSubstr clean.data (pyLower p.product_name).data ||
        isSubstr (pyLower p.product_name).data clean.data)

/-- Embedding of the typeform_scholarship handler. -/
def typeform_scholarship (cfg : Config) (now : String) (body : List Nat)
    (sig_header : String) (payload : TFPayload) (db : DB) :
    Except HErr Resp × DB :=
  if cfg.typeformWebhookSecret ≠ "" ∧
      _verify_typeform_signature body sig_header cfg.typeformWebhookSecret = false then
    (.error ⟨401, "Invalid Typeform signature"⟩, db)
  else if payload.event_type ≠ some "form_response" then
    (.ok (.ignored payload.event_type), db)
  else
    let form_response := payload.form_response
    let parsed := form_response.answers.foldl scholarshipStep scholarshipParsedInit
    let email := normEmail (parsed.email.getD "")
    if email == "" then
      (.error ⟨400, "No email found in scholarship application"⟩, db)
    else
      let course_name :=
        match parsed.course_name with
        | some v => jvalStr v
        | none => ""
      let product := _fuzzy_match_product course_name db
      let applied_at :=
        match form_response.submitted_at with
        | some ts =>
          match pyDateTimeFromIso (replaceZ ts) with
          | some d => d
          | none => now
        | none => now
      let app : ScholarshipApplication :=
        { id := db.nextAppId, email := email
          first_name := parsed.first_name.getD ""
          last_name := parsed.last_name.getD ""
          product_id := product.map (fun p => p.id)
          is_subscriber := parsed.is_subscriber
          amount_willing_to_pay := parsed.amount_willing_to_pay
          circumstances := parsed.circumstances
          hopes := parsed.hopes
          best_case_impact := parsed.best_case_impact
          status := "pending", enrolled := false
          applied_at := some applied_at }
      let db := { db with apps := db.apps ++ [app]
                          nextAppId := db.nextAppId + 1 }
      (.ok (.applicationReceived app.id email (product.map (fun p => p.product_name))), db)

/-! ### Helpers for the theorems -/

/-- Repeated redelivery of the same Kit event. -/
def kitRedeliver (cfg : Config) (ext : Ext) (kit_tag : String)
    (payload : KitPayload) (provided_secret : String) : Nat → DB → DB
  | 0, db => db
  | n + 1, db =>
    kitRedeliver cfg ext kit_tag payload provided_secret n
      (kit_tag_added cfg ext kit_tag payload provided_secret db).2

/-- Number of students whose normalised email matches. -/
def countStudents (db : DB) (clean : String) : Nat :=
  (db.students.filter (fun s => pyLower s.email == clean)).length

/-- Number of enrollments with the given natural key. -/
def countEnrollments (db : DB) (key : String) : Nat :=
  (db.enrollments.filter (fun e => e.enrollment_id == key)).length

/-- Number of sales with the given transaction key. -/
def countSales (db : DB) (key : String) : Nat :=
  (db.sales.filter (fun s => s.sale_id == key)).length

/-- The enrollment-result payload of a handler response, when it has one. -/
def enrollRespOf : Except HErr Resp → Option EnrollResult
  | .ok (.enroll r) => some r
  | .ok (.typeformEnroll r _ _) => some r
  | _ => none

/-! ### Concrete example inputs used to instantiate the theorems -/

/-- The offering of the spec scenarios: slug ccfb, tagging-service tag
course-123, a Stripe price id, no survey configuration. -/
def exProduct : Product :=
  { id := 1, product_id := "ccfb", product_name := "Claude Code for Beginners"
    kit_tag := some "course-123", stripe_price_id := some "price_1"
    typeform_form_id := none, typeform_field_map := none
    kit_rsvp_tag := none, kit_onboarded_tag := none
    completion_survey_form_id := none, completion_survey_field_map := none }

/-- An empty store holding only the example offering. -/
def exDB0 : DB :=
  { products := [exProduct], students := [], enrollments := [], sales := []
    apps := [], nextStudentId := 1, nextEnrollmentId := 1, nextSaleId := 1
    nextAppId := 1 }

/-- Development configuration: no secrets, verification disabled. -/
def exCfg : Config := ⟨"", "", ""⟩

/-- Configuration with all three provider secrets set. -/
def exCfgS : Config := ⟨"kitsecret", "whsec_1", "tfsecret"⟩

/-- A Kit oracle whose outbound tagging calls fail (offline). -/
def exExt : Ext := ⟨fun _ _ => false⟩

/-- The tagging-service event of the spec scenario. -/
def exKitPayload : KitPayload := ⟨⟨7, some "Ada Lovelace", "a@x.com"⟩⟩

/-- A pending scholarship application for the scenario email and offering. -/
def exApp : ScholarshipApplication :=
  { id := 1, email := "a@x.com", first_name := "Ada", last_name := "L"
    product_id := some 1, is_subscriber := none
    amount_willing_to_pay := none, circumstances := none, hopes := none
    best_case_impact := none, status := "pending", enrolled := false
    applied_at := none }

/-- The checkout session of the spec payment scenario. -/
def exSession : StripeSession :=
  { id := "sess1", customer_email := some "a@x.com"
    customer_details_email := none, customer_details_name := some "Ada L"
    metadata_price_id := none, metadata_product_id := some "ccfb"
    line_items := [], amount_total := some 49900, currency := some "usd"
    payment_intent := some "pi_1" }

def exEvent : StripeEvent := ⟨some "checkout.session.completed", exSession⟩

/-- The store of the payment scenario: offering plus accepted application. -/
def exDB1 : DB := { exDB0 with apps := [{ exApp with status := "accepted" }] }

/-- The store of the redelivery counterexample, built by actually delivering
the payment event once against a store whose application is still pending. -/
def exDB2 : DB :=
  (stripe_checkout exCfg exExt "2026-01-01T00:00:00" [] "" exEvent
    { exDB0 with apps := [exApp] }).2

/-- exDB2 after the scholarship decision endpoint accepts the application. -/
def exDB3 : DB :=
  { exDB2 with apps := exDB2.apps.map (fun a => { a with status := "accepted" }) }

/-- An answer record with no keys, for building concrete answers. -/
def emptyTFAnswer : TFAnswer :=
  { type := "", field_ref := "", field_id := "", email := none, text := none
    choice := none, choices := none, boolean := none, date := none
    number := none, phone_number := none, url := none, file_url := none
    contact_info := none, contacts := none }

/-- The dynamic-survey creation event of the spec scenario: an email answer
with no reference name and a text answer referenced country. -/
def exTFPayload : TFPayload :=
  ⟨some "form_response",
   ⟨none,
    [{ emptyTFAnswer with type := "email", email := some "b@y.com" },
     { emptyTFAnswer with type := "text", field_ref := "country", text := some "Norway" }],
    none⟩⟩

/-- A student row as _find_or_create_student creates it. -/
def exStudent : Student :=
  { id := 1, student_number := 1, first_name := "Ada", last_name := "L"
    email := "a@x.com", preferred_name := none, alternative_email := none
    country := none, timezone := none, closest_city := none, dob := none
    gender := none, learn_about_course := none, consent_images := none
    consent_photo_on_site := none, what_made_you_join := none
    get_from := none, here_for := none, claude_confidence_level := none
    onboarding_date := none }

/-- An enrollment for the example student and offering with no sale link. -/
def exEnrollment : Enrollment :=
  { id := 1, enrollment_id := "a@x.com_ccfb", status := some "Paying Customer (Full-fee)"
    source := some "kit", student_id := 1, product_id := 1, sale_id := none
    biggest_win := none, three_things_learned := none, confidence_after := none
    satisfaction := none, recommend_score := none, testimonial := none
    improvement_suggestion := none, interest_longer_program := none
    followup_topics := none, beginner_friendly_rating := none
    expected_learning_not_covered := none, anything_else := none
    transformational_score := none, delivered_on_promise_score := none
    survey_response_type := none, survey_submit_date := none }

/-- A store holding the student and the unlinked enrollment. -/
def exDB4 : DB :=
  { exDB0 with students := [exStudent], enrollments := [exEnrollment]
               nextStudentId := 2, nextEnrollmentId := 2 }

/-! ### Helper lemmas -/

theorem toNat_ofNat_valid (n : Nat) (h : n.isValidChar) :
    (Char.ofNat n).toNat = n := by
  rw [Char.ofNat, dif_pos h]
  rfl

theorem pyCharLower_idem (c : Char) :
    pyCharLower (pyCharLower c) = pyCharLower c := by
  unfold pyCharLower
  by_cases h : 65 ≤ c.toNat ∧ c.toNat ≤ 90
  · rw [if_pos h]
    have hv : (c.toNat + 32).isValidChar := Or.inl (by omega)
    rw [if_neg]
    rw [toNat_ofNat_valid _ hv]
    omega
  · rw [if_neg h, if_neg h]

theorem mem_stripChars {x : Char} {l : List Char} (h : x ∈ stripChars l) :
    x ∈ l := by
  unfold stripChars at h
  rw [List.mem_reverse] at h
  have h1 := (List.dropWhile_sublist _).mem h
  rw [List.mem_reverse] at h1
  exact (List.dropWhile_sublist _).mem h1

/-- Normalised emails are fixed points of lowering: the stored email of a
created student matches its own case-insensitive lookup. -/
theorem pyLower_normEmail (s : String) : pyLower (normEmail s) = normEmail s := by
  unfold normEmail pyStrip pyLower
  apply congrArg String.mk
  have hfix : ∀ x ∈ stripChars (s.data.map pyCharLower), pyCharLower x = x := by
    intro x hx
    have hx2 := mem_stripChars hx
    rcases List.mem_map.mp hx2 with ⟨y, _, rfl⟩
    exact pyCharLower_idem y
  calc (stripChars (s.data.map pyCharLower)).map pyCharLower
      = (stripChars (s.data.map pyCharLower)).map id := List.map_congr_left hfix
    _ = _ := List.map_id _

theorem updateFirst_of_find?_none {α : Type} (p : α → Bool) (f : α → α)
    (l : List α) (h : l.find? p = none) : updateFirst p f l = l := by
  induction l with
  | nil => rfl
  | cons a as ih =>
    cases hpa : p a with
    | true => simp [List.find?_cons, hpa] at h
    | false =>
      simp only [List.find?_cons, hpa] at h
      rw [updateFirst, if_neg (by simp [hpa]), ih h]

theorem updateFirst_append_of_find?_none {α : Type} (p : α → Bool)
    (f : α → α) (l₁ l₂ : List α) (h : l₁.find? p = none) :
    updateFirst p f (l₁ ++ l₂) = l₁ ++ updateFirst p f l₂ := by
  induction l₁ with
  | nil => rfl
  | cons a as ih =>
    cases hpa : p a with
    | true => simp [List.find?_cons, hpa] at h
    | false =>
      simp only [List.find?_cons, hpa] at h
      rw [List.cons_append, updateFirst, if_neg (by simp [hpa]), ih h,
        List.cons_append]

theorem updateFirst_fix {α : Type} (p : α → Bool) (f : α → α) (l : List α)
    (h : ∀ x ∈ l, p x = true → f x = x) : updateFirst p f l = l := by
  induction l with
  | nil => rfl
  | cons a as ih =>
    rw [updateFirst]
    by_cases hpa : p a = true
    · rw [if_pos hpa, h a (List.mem_cons_self a as) hpa]
    · rw [if_neg hpa, ih (fun x hx => h x (List.mem_cons_of_mem a hx))]

theorem length_toBE (k n : Nat) : (toBE k n).length = k := by
  simp [toBE]

theorem sha256_length (msg : List Nat) : (sha256 msg).length = 32 := by
  unfold sha256 hashBytes
  simp [length_toBE]

theorem hmacSha256_length (key msg : List Nat) :
    (hmacSha256 key msg).length = 32 := by
  unfold hmacSha256
  exact sha256_length _

theorem length_hexDigest (bs : List Nat) :
    (hexDigest bs).length = 2 * bs.length := by
  induction bs with
  | nil => rfl
  | cons b tl ih =>
    unfold hexDigest at ih ⊢
    simp only [List.flatMap_cons, List.length_append, ih, List.length_cons,
      List.length_nil]
    omega

theorem hexDigest_hmac_ne_nil (key msg : List Nat) :
    hexDigest (hmacSha256 key msg) ≠ [] := by
  intro h
  have hl := congrArg List.length h
  rw [length_hexDigest, hmacSha256_length] at hl
  simp at hl

theorem hexDigitChar_ne_comma (n : Nat) : hexDigitChar n ≠ ',' := by
  unfold hexDigitChar
  split <;> decide

theorem comma_not_mem_hexDigest (bs : List Nat) : ',' ∉ hexDigest bs := by
  intro h
  rw [hexDigest, List.mem_flatMap] at h
  rcases h with ⟨b, _, hb⟩
  simp only [List.mem_cons, List.not_mem_nil, or_false] at hb
  rcases hb with h | h <;> exact hexDigitChar_ne_comma _ h.symm

theorem splitAllChar_ne_nil (sep : Char) (l : List Char) :
    splitAllChar sep l ≠ [] := by
  cases l with
  | nil => simp [splitAllChar]
  | cons a as =>
    rw [splitAllChar]
    rcases hs : splitAllChar sep as with _ | ⟨y, ys⟩
    · simp
    · by_cases hsep : a = sep <;> simp [hsep]

theorem splitAllChar_of_not_mem (sep : Char) (l : List Char)
    (h : sep ∉ l) : splitAllChar sep (l) = [l] := by
  induction l with
  | nil => rfl
  | cons a as ih =>
    have hne : ¬(a = sep) := fun he => h (he ▸ List.mem_cons_self a as)
    have h2 : sep ∉ as := fun hm => h (List.mem_cons_of_mem _ hm)
    rw [splitAllChar, ih h2]
    simp [hne]

theorem splitAllChar_append (sep : Char) (a b : List Char) (h : sep ∉ a) :
    splitAllChar sep (a ++ sep :: b) = a :: splitAllChar sep b := by
  induction a with
  | nil =>
    rcases hs : splitAllChar sep b with _ | ⟨y, ys⟩
    · exact absurd hs (splitAllChar_ne_nil sep b)
    · simp [splitAllChar, hs]
  | cons x xs ih =>
    have hne : ¬(x = sep) := fun he => h (he ▸ List.mem_cons_self x xs)
    have h2 : sep ∉ xs := fun hm => h (List.mem_cons_of_mem _ hm)
    rw [List.cons_append, splitAllChar, ih h2]
    simp [hne]

theorem splitOnceChar_append (sep : Char) (a b : List Char) (h : sep ∉ a) :
    splitOnceChar sep (a ++ sep :: b) = some (a, b) := by
  induction a with
  | nil => simp [splitOnceChar]
  | cons x xs ih =>
    have hne : ¬(x = sep) := fun he => h (he ▸ List.mem_cons_self x xs)
    have h2 : sep ∉ xs := fun hm => h (List.mem_cons_of_mem _ hm)
    rw [List.cons_append, splitOnceChar]
    simp [hne, ih h2]

theorem mapMOpt_eq_none_of_mem {α β : Type} (f : α → Option β) (l : List α)
    (x : α) (hx : x ∈ l) (hf : f x = none) : mapMOpt f l = none := by
  induction l with
  | nil => cases hx
  | cons a as ih =>
    rw [mapMOpt]
    rcases List.mem_cons.mp hx with rfl | hmem
    · simp [hf]
    · cases hfa : f a
      · rfl
      · simp [ih hmem]

theorem not_mem_cons_of {x a : Char} {l : List Char} (h1 : x ≠ a)
    (h2 : x ∉ l) : x ∉ a :: l := by
  intro hm
  rcases List.mem_cons.mp hm with h | h
  · exact h1 h
  · exact h2 h

theorem data_mkSigHeader (t sig : String) :
    (mkSigHeader t sig).data =
      't' :: '=' :: (t.data ++ (',' :: 'v' :: '1' :: '=' :: sig.data)) := by
  show ("t=" ++ t ++ ",v1=" ++ sig).data = _
  rw [String.data_append, String.data_append, String.data_append]
  simp [List.append_assoc]

theorem parseSigHeader_mk (t sig : String) (ht : ',' ∉ t.data)
    (hs : ',' ∉ sig.data) :
    parseSigHeader (mkSigHeader t sig).data =
      some [(['t'], t.data), (['v', '1'], sig.data)] := by
  rw [data_mkSigHeader]
  unfold parseSigHeader
  have hsplit : splitAllChar ','
      ('t' :: '=' :: (t.data ++ (',' :: 'v' :: '1' :: '=' :: sig.data))) =
      ('t' :: '=' :: t.data) :: splitAllChar ',' ('v' :: '1' :: '=' :: sig.data) := by
    have := splitAllChar_append ',' ('t' :: '=' :: t.data)
      ('v' :: '1' :: '=' :: sig.data)
      (not_mem_cons_of (by decide) (not_mem_cons_of (by decide) ht))
    simpa using this
  rw [hsplit]
  have htail : splitAllChar ',' ('v' :: '1' :: '=' :: sig.data) =
      [('v' :: '1' :: '=' :: sig.data)] := by
    apply splitAllChar_of_not_mem
    exact not_mem_cons_of (by decide)
      (not_mem_cons_of (by decide) (not_mem_cons_of (by decide) hs))
  rw [htail]
  have h1 : splitOnceChar '=' ('t' :: '=' :: t.data) = some (['t'], t.data) := by
    have := splitOnceChar_append '=' ['t'] t.data (by decide)
    simpa using this
  have h2 : splitOnceChar '=' ('v' :: '1' :: '=' :: sig.data) =
      some (['v', '1'], sig.data) := by
    have := splitOnceChar_append '=' ['v', '1'] sig.data (by decide)
    simpa using this
  simp [mapMOpt, h1, h2]

/-- Master reduction of the Stripe verifier on a well-formed header. -/
theorem verify_stripe_mkSigHeader (body : List Nat) (t sig secret : String)
    (ht : ',' ∉ t.data) (hs : ',' ∉ sig.data) :
    _verify_stripe_signature body (mkSigHeader t sig) secret =
      (hexDigest (hmacSha256 (utf8 secret) (utf8 t ++ [46] ++ body)) == sig.data) := by
  unfold _verify_stripe_signature
  rw [parseSigHeader_mk t sig ht hs]
  simp [dictGetLast]

/-! ### Claim theorems -/

/-- C7: identity resolution normalises the email (trim, lowercase) and looks
the Person up case-insensitively; an existing Person is returned with the
store untouched (no field modified); otherwise a new Person is created with
the normalised email and sequence number one more than the current maximum,
which is 1 when no Person exists. -/
theorem C7_identity_resolution (db : DB) (email fn ln : String) :
    (∀ st, db.students.find? (fun s => pyLower s.email == normEmail email) = some st →
      _find_or_create_student db email fn ln = (st, db)) ∧
    (db.students.find? (fun s => pyLower s.email == normEmail email) = none →
      (_find_or_create_student db email fn ln).1.email = normEmail email ∧
      (_find_or_create_student db email fn ln).1.student_number = maxStudentNumber db.students + 1 ∧
      (_find_or_create_student db email fn ln).1.first_name = fn ∧
      (_find_or_create_student db email fn ln).1.last_name = ln ∧
      (_find_or_create_student db email fn ln).2.students = db.students ++ [(_find_or_create_student db email fn ln).1] ∧
      (_find_or_create_student db email fn ln).2.products = db.products ∧
      (_find_or_create_student db email fn ln).2.enrollments = db.enrollments ∧
      (_find_or_create_student db email fn ln).2.sales = db.sales ∧
      (_find_or_create_student db email fn ln).2.apps = db.apps) ∧
    (db.students = [] → (_find_or_create_student db email fn ln).1.student_number = 1) := by
  refine ⟨?_, ?_, ?_⟩
  · intro st h
    simp [_find_or_create_student, h]
  · intro h
    simp [_find_or_create_student, h]
  · intro h
    simp [_find_or_create_student, h, maxStudentNumber]

/-- Witness for C7 at concrete inputs: lookup of an uppercase, padded email
finds the stored student unchanged; creation in an empty store allocates
sequence number 1. -/
theorem C7_identity_resolution_witness :
    _find_or_create_student exDB4 "A@x.Com " "X" "Y" = (exStudent, exDB4) ∧
    (_find_or_create_student exDB0 "B@y.com" "F" "L").1.student_number = 1 := by
  constructor
  · exact (C7_identity_resolution exDB4 "A@x.Com " "X" "Y").1 exStudent (by decide)
  · exact (C7_identity_resolution exDB0 "B@y.com" "F" "L").2.2 (by rfl)

/-- C2: when an Enrollment with the computed natural key already exists,
a supplied sale reference is backfilled only when the existing row has no
sale link, and then only the sale_id field changes; an existing link is
never changed; without a sale reference nothing changes. In every case the
existing row is returned as already_enrolled and no second row is
created. -/
theorem C2_enrollment_backfill (ext : Ext) (db : DB) (student : Student)
    (product : Product) (status : String) (source : Option String)
    (ex : Enrollment)
    (hex : db.enrollments.find? (fun e => e.enrollment_id == student.email ++ "_" ++ product.product_id) = some ex) :
    (∀ s : Nat, s ≠ 0 → ex.sale_id = none →
      _create_enrollment ext db student product status source (some s) =
        ({ status := "already_enrolled", enrollment_id := student.email ++ "_" ++ product.product_id, student_id := none, product_id := none, kit_rsvp_tagged := none },
         { db with enrollments := updateFirst (fun e => e.enrollment_id == student.email ++ "_" ++ product.product_id) (fun e => { e with sale_id := some s }) db.enrollments })) ∧
    (∀ s t : Nat, ex.sale_id = some t → t ≠ 0 →
      _create_enrollment ext db student product status source (some s) =
        ({ status := "already_enrolled", enrollment_id := student.email ++ "_" ++ product.product_id, student_id := none, product_id := none, kit_rsvp_tagged := none }, db)) ∧
    (_create_enrollment ext db student product status source none =
        ({ status := "already_enrolled", enrollment_id := student.email ++ "_" ++ product.product_id, student_id := none, product_id := none, kit_rsvp_tagged := none }, db)) := by
  refine ⟨?_, ?_, ?_⟩
  · intro s hs hsale
    simp [_create_enrollment, hex, optNatTruthy, hsale, hs]
  · intro s t hsale ht
    simp [_create_enrollment, hex, optNatTruthy, hsale, ht]
  · simp [_create_enrollment, hex, optNatTruthy]

/-- Witness for C2: backfilling an unlinked enrollment in the concrete
store links sale 5 and changes nothing else; redundant replay without a
sale reference returns the row and leaves the store untouched. -/
theorem C2_enrollment_backfill_witness :
    _create_enrollment exExt exDB4 exStudent exProduct "Paying Customer (Full-fee)" (some "stripe") (some 5) =
      ({ status := "already_enrolled", enrollment_id := "a@x.com_ccfb", student_id := none, product_id := none, kit_rsvp_tagged := none },
       { exDB4 with enrollments := [{ exEnrollment with sale_id := some 5 }] }) ∧
    _create_enrollment exExt exDB4 exStudent exProduct "Paying Customer (Full-fee)" (some "kit") none =
      ({ status := "already_enrolled", enrollment_id := "a@x.com_ccfb", student_id := none, product_id := none, kit_rsvp_tagged := none }, exDB4) := by
  constructor
  · have h := (C2_enrollment_backfill exExt exDB4 exStudent exProduct
      "Paying Customer (Full-fee)" (some "stripe") exEnrollment (by decide)).1
      5 (by decide) (by decide)
    rw [h]
    decide
  · exact (C2_enrollment_backfill exExt exDB4 exStudent exProduct
      "Paying Customer (Full-fee)" (some "kit") exEnrollment (by decide)).2.2

theorem find?_map_replace (l : List (String × JVal)) (k k' : String)
    (v : JVal) (h : k' ≠ k) :
    (l.map (fun kv => if kv.1 == k then (k, v) else kv)).find? (fun kv => kv.1 == k') =
      l.find? (fun kv => kv.1 == k') := by
  induction l with
  | nil => rfl
  | cons kv tl ih =>
    rw [List.map_cons, List.find?_cons, List.find?_cons]
    by_cases hk : (kv.1 == k) = true
    · rw [if_pos hk]
      have hkk : kv.1 = k := beq_iff_eq.mp hk
      have h2 : (kv.1 == k') = false := by
        rw [beq_eq_false_iff_ne, hkk]
        exact fun he => h he.symm
      have h3 : ((k, v).1 == k') = false := by
        rw [beq_eq_false_iff_ne]
        exact fun he => h he.symm
      rw [h2, h3]
      exact ih
    · rw [if_neg hk]
      cases h2 : kv.1 == k' with
      | true => rfl
      | false => exact ih

theorem dictGet_dictSet_ne (l : List (String × JVal)) (k : String) (v : JVal)
    (k' : String) (h : k' ≠ k) : dictGet (dictSet l k v) k' = dictGet l k' := by
  unfold dictGet dictSet
  by_cases hh : dictHas l k = true
  · rw [if_pos hh, find?_map_replace l k k' v h]
  · rw [if_neg hh, List.find?_append]
    have h3 : (k == k') = false := by
      rw [beq_eq_false_iff_ne]
      exact fun he => h he.symm
    simp [List.find?_cons, h3]

/-- C5: an answer whose reference appears in the explicit field map is
stored under the mapped target (name and full_name targets split into
first and last name at the first whitespace run); the convention branch for
the same reference is never reached, so nothing is stored under the
convention-matched reference name. -/
theorem C5_explicit_map_precedence (fm : List (String × String))
    (result : List (String × JVal)) (answer : TFAnswer) (target : String)
    (value : JVal)
    (hv : _extract_typeform_answer answer = some value)
    (hmap : smGet fm answer.field_ref = some target) :
    (target ≠ "name" → target ≠ "full_name" →
      typeformStep (some fm) result answer = dictSet result target value ∧
      (target ≠ answer.field_ref →
        dictGet (typeformStep (some fm) result answer) answer.field_ref =
          dictGet result answer.field_ref)) ∧
    ((target = "name" ∨ target = "full_name") →
      typeformStep (some fm) result answer =
        dictSet (dictSet result "first_name" (.s (_split_name (jvalStr value)).1))
          "last_name" (.s (_split_name (jvalStr value)).2)) := by
  constructor
  · intro h1 h2
    have hstep : typeformStep (some fm) result answer = dictSet result target value := by
      simp [typeformStep, hv, hmap, h1, h2]
    refine ⟨hstep, fun hne => ?_⟩
    rw [hstep]
    exact dictGet_dictSet_ne result target value answer.field_ref
      (fun he => hne he.symm)
  · intro h1
    rcases h1 with h1 | h1 <;> simp [typeformStep, hv, hmap, h1]

/-- Witness for C5 at a concrete answer: reference country is explicitly
mapped to timezone while country is also a canonical attribute; the value
lands under timezone and country stays unbound. -/
theorem C5_explicit_map_precedence_witness :
    typeformStep (some [("country", "timezone")]) []
        { emptyTFAnswer with type := "text", field_ref := "country", text := some "Oslo" } =
      [("timezone", .s "Oslo")] ∧
    dictGet (typeformStep (some [("country", "timezone")]) []
        { emptyTFAnswer with type := "text", field_ref := "country", text := some "Oslo" }) "country" = none := by
  have h := (C5_explicit_map_precedence [("country", "timezone")] []
    { emptyTFAnswer with type := "text", field_ref := "country", text := some "Oslo" }
    "timezone" (.s "Oslo") (by decide) (by decide)).1
    (by decide) (by decide)
  constructor
  · rw [h.1]
    decide
  · rw [h.2 (by decide)]
    decide

/-- C8: an email-typed answer matched neither by the explicit map nor by
the field-name convention becomes the identity email when none was captured
yet; a convention-matched reference stores under its own name; and the
scenario payload with an anonymous email answer and a country text answer
yields a Person with email b@y.com and country Norway. -/
theorem C8_email_autodetect (field_map : Option (List (String × String)))
    (result : List (String × JVal)) (answer : TFAnswer) (value : JVal)
    (hv : _extract_typeform_answer answer = some value)
    (hfm : field_map.bind (fun m => smGet m answer.field_ref) = none) :
    (answer.type = "email" → _STUDENT_FIELDS.contains answer.field_ref = false →
      dictHas result "email" = false →
      typeformStep field_map result answer = dictSet result "email" value) ∧
    (_STUDENT_FIELDS.contains answer.field_ref = true →
      typeformStep field_map result answer = dictSet result answer.field_ref value) ∧
    ((typeform_submission exCfg exExt "ccfb" [] "" exTFPayload exDB0).2.students.map
        (fun s => (s.email, s.country)) = [("b@y.com", some (.s "Norway"))]) := by
  refine ⟨?_, ?_, ?_⟩
  · intro htype hconv hhas
    have hnotmem : answer.field_ref ∉ _STUDENT_FIELDS := by simpa using hconv
    simp [typeformStep, hv, hfm, htype, hnotmem, hhas]
  · intro hconv
    have hmem : answer.field_ref ∈ _STUDENT_FIELDS := by simpa using hconv
    simp [typeformStep, hv, hfm, hmem]
  · decide

/-- Witness for C8: the anonymous email answer of the scenario is captured
as the identity email by the auto-detection branch. -/
theorem C8_email_autodetect_witness :
    typeformStep none [] { emptyTFAnswer with type := "email", email := some "b@y.com" } =
      [("email", .s "b@y.com")] ∧
    typeformStep none [("email", .s "b@y.com")]
        { emptyTFAnswer with type := "text", field_ref := "country", text := some "Norway" } =
      [("email", .s "b@y.com"), ("country", .s "Norway")] := by
  constructor
  · have h := (C8_email_autodetect none []
      { emptyTFAnswer with type := "email", email := some "b@y.com" }
      (.s "b@y.com") (by decide) (by decide)).1 (by decide) (by decide) (by decide)
    rw [h]
    decide
  · have h := (C8_email_autodetect none [("email", .s "b@y.com")]
      { emptyTFAnswer with type := "text", field_ref := "country", text := some "Norway" }
      (.s "Norway") (by decide) (by decide)).2.1 (by decide)
    rw [h]
    decide

/-- C6: the Stripe verifier parses t and v1 out of the comma-separated
key=value header, recomputes HMAC-SHA256 of timestamp.rawBody with the
configured secret, and compares digests: a header carrying the correctly
computed signature for the body is accepted, and whenever the recomputed
digest of the presented body differs from the v1 component — in particular
when the body was tampered with after signing — the event is rejected. -/
theorem C6_stripe_signature_scheme :
    (∀ (body : List Nat) (t secret : String), ',' ∉ t.data →
      _verify_stripe_signature body
        (mkSigHeader t ⟨hexDigest (hmacSha256 (utf8 secret) (utf8 t ++ [46] ++ body))⟩)
        secret = true) ∧
    (∀ (body : List Nat) (t sig secret : String), ',' ∉ t.data → ',' ∉ sig.data →
      hexDigest (hmacSha256 (utf8 secret) (utf8 t ++ [46] ++ body)) ≠ sig.data →
      _verify_stripe_signature body (mkSigHeader t sig) secret = false) := by
  constructor
  · intro body t secret ht
    exact (verify_stripe_mkSigHeader body t
      ⟨hexDigest (hmacSha256 (utf8 secret) (utf8 t ++ [46] ++ body))⟩ secret ht
      (comma_not_mem_hexDigest _)).trans (beq_self_eq_true _)
  · intro body t sig secret ht hs hne
    exact (verify_stripe_mkSigHeader body t sig secret ht hs).trans
      (beq_eq_false_iff_ne.mpr hne)

/-- Witness for C6: the correctly signed body hello is accepted; the
tampered body hello! under the unchanged header is rejected. -/
theorem C6_stripe_signature_scheme_witness :
    _verify_stripe_signature (utf8 "hello")
      (mkSigHeader "12345"
        ⟨hexDigest (hmacSha256 (utf8 "whsec_1") (utf8 "12345" ++ [46] ++ utf8 "hello"))⟩)
      "whsec_1" = true ∧
    _verify_stripe_signature (utf8 "hello!")
      (mkSigHeader "12345"
        ⟨hexDigest (hmacSha256 (utf8 "whsec_1") (utf8 "12345" ++ [46] ++ utf8 "hello"))⟩)
      "whsec_1" = false := by
  constructor
  · exact C6_stripe_signature_scheme.1 (utf8 "hello") "12345" "whsec_1" (by decide)
  · exact C6_stripe_signature_scheme.2 (utf8 "hello!") "12345"
      ⟨hexDigest (hmacSha256 (utf8 "whsec_1") (utf8 "12345" ++ [46] ++ utf8 "hello"))⟩
      "whsec_1" (by decide) (comma_not_mem_hexDigest _) (by decide)

/-- Reduction of the Stripe verifier on a header carrying only v1: the
timestamp defaults to empty and the digest is computed over dot-body. -/
theorem verify_stripe_v1_only (body : List Nat) (sig secret : String)
    (hs : ',' ∉ sig.data) :
    _verify_stripe_signature body ("v1=" ++ sig) secret =
      (hexDigest (hmacSha256 (utf8 secret) ([46] ++ body)) == sig.data) := by
  unfold _verify_stripe_signature
  have hdata : ("v1=" ++ sig).data = 'v' :: '1' :: '=' :: sig.data := by
    rw [String.data_append]
    rfl
  rw [hdata]
  unfold parseSigHeader
  rw [splitAllChar_of_not_mem ',' ('v' :: '1' :: '=' :: sig.data)
    (not_mem_cons_of (by decide) (not_mem_cons_of (by decide)
      (not_mem_cons_of (by decide) hs)))]
  have honce : splitOnceChar '=' ('v' :: '1' :: '=' :: sig.data) =
      some (['v', '1'], sig.data) := by
    simpa using splitOnceChar_append '=' ['v', '1'] sig.data (by decide)
  simp [mapMOpt, honce, dictGetLast]
  exact Iff.rfl

/-- C10 counterexample: a header with no t component at all is not always
rejected — with the timestamp defaulting to empty, a v1 equal to the HMAC
of dot-payload verifies, so the claim that missing t/v1 components yield
False is refuted at this input. -/
theorem C10_counterexample :
    _verify_stripe_signature (utf8 "x")
      ("v1=" ++ ⟨hexDigest (hmacSha256 (utf8 "whsec_1") ([46] ++ utf8 "x"))⟩)
      "whsec_1" = true :=
  (verify_stripe_v1_only (utf8 "x")
    ⟨hexDigest (hmacSha256 (utf8 "whsec_1") ([46] ++ utf8 "x"))⟩ "whsec_1"
    (comma_not_mem_hexDigest _)).trans (beq_self_eq_true _)

/-- C10 amended: the verifier is a total boolean function; an item without
an equals sign makes the parse fail and yields False, a parsed header with
no v1 component yields False, and a parsed header with no t component
defaults the timestamp to empty, verifying exactly when v1 matches the HMAC
of dot-body. -/
theorem C10_verifier_malformed (payload : List Nat) (hdr secret : String) :
    (∀ item ∈ splitAllChar ',' hdr.data, splitOnceChar '=' item = none →
      _verify_stripe_signature payload hdr secret = false) ∧
    (∀ pairs, parseSigHeader hdr.data = some pairs →
      pairs.filter (fun kv => kv.1 == ['v', '1']) = [] →
      _verify_stripe_signature payload hdr secret = false) ∧
    (∀ pairs, parseSigHeader hdr.data = some pairs →
      pairs.filter (fun kv => kv.1 == ['t']) = [] →
      _verify_stripe_signature payload hdr secret =
        (hexDigest (hmacSha256 (utf8 secret) ([46] ++ payload)) ==
          dictGetLast pairs ['v', '1'])) := by
  refine ⟨?_, ?_, ?_⟩
  · intro item hmem hnone
    have hp : parseSigHeader hdr.data = none :=
      mapMOpt_eq_none_of_mem _ _ item hmem hnone
    unfold _verify_stripe_signature
    rw [hp]
  · intro pairs hp hfilter
    unfold _verify_stripe_signature
    rw [hp]
    have hlast : dictGetLast pairs ['v', '1'] = [] := by
      unfold dictGetLast
      rw [hfilter]
      rfl
    simp only [hlast]
    exact beq_eq_false_iff_ne.mpr (hexDigest_hmac_ne_nil _ _)
  · intro pairs hp hfilter
    unfold _verify_stripe_signature
    rw [hp]
    have hlast : dictGetLast pairs ['t'] = [] := by
      unfold dictGetLast
      rw [hfilter]
      rfl
    simp only [hlast]
    rfl

/-- Witness for C10 amended: a header item without an equals sign is
rejected and a header carrying only t is rejected. -/
theorem C10_verifier_malformed_witness :
    _verify_stripe_signature (utf8 "x") "garbage" "whsec_1" = false ∧
    _verify_stripe_signature (utf8 "x") "t=123" "whsec_1" = false := by
  constructor
  · exact (C10_verifier_malformed (utf8 "x") "garbage" "whsec_1").1
      "garbage".data (by decide) (by decide)
  · exact (C10_verifier_malformed (utf8 "x") "t=123" "whsec_1").2.1
      [(['t'], ['1', '2', '3'])] (by decide) (by decide)

/-- C9: on every provider path, a failing configured signature or secret
check terminates the handler with a 401 error and the returned store is the
unchanged input store — no Person, Enrollment, Sale or ScholarshipApplication
row is created or modified. -/
theorem C9_auth_failure_no_side_effects (cfg : Config) (ext : Ext) (db : DB)
    (body : List Nat) (sig_header provided now kit_tag product_id : String)
    (kp : KitPayload) (fp : FormPayload) (se : StripeEvent) (tp : TFPayload) :
    (cfg.kitWebhookSecret ≠ "" → provided ≠ cfg.kitWebhookSecret →
      kit_tag_added cfg ext kit_tag kp provided db =
        (.error ⟨401, "Invalid webhook secret"⟩, db)) ∧
    (cfg.kitWebhookSecret ≠ "" → provided ≠ cfg.kitWebhookSecret →
      form_submission cfg ext product_id fp provided db =
        (.error ⟨401, "Invalid webhook secret"⟩, db)) ∧
    (cfg.stripeWebhookSecret ≠ "" →
      _verify_stripe_signature body sig_header cfg.stripeWebhookSecret = false →
      stripe_checkout cfg ext now body sig_header se db =
        (.error ⟨401, "Invalid Stripe signature"⟩, db)) ∧
    (cfg.typeformWebhookSecret ≠ "" →
      _verify_typeform_signature body sig_header cfg.typeformWebhookSecret = false →
      typeform_submission cfg ext product_id body sig_header tp db =
        (.error ⟨401, "Invalid Typeform signature"⟩, db)) ∧
    (cfg.typeformWebhookSecret ≠ "" →
      _verify_typeform_signature body sig_header cfg.typeformWebhookSecret = false →
      typeform_completion_survey cfg product_id body sig_header tp db =
        (.error ⟨401, "Invalid Typeform signature"⟩, db)) ∧
    (cfg.typeformWebhookSecret ≠ "" →
      _verify_typeform_signature body sig_header cfg.typeformWebhookSecret = false →
      typeform_scholarship cfg now body sig_header tp db =
        (.error ⟨401, "Invalid Typeform signature"⟩, db)) := by
  refine ⟨?_, ?_, ?_, ?_, ?_, ?_⟩
  · intro h1 h2
    unfold kit_tag_added
    rw [if_pos (And.intro h1 h2)]
  · intro h1 h2
    unfold form_submission
    rw [if_pos (And.intro h1 h2)]
  · intro h1 h2
    unfold stripe_checkout
    rw [if_pos (And.intro h1 h2)]
  · intro h1 h2
    unfold typeform_submission
    rw [if_pos (And.intro h1 h2)]
  · intro h1 h2
    unfold typeform_completion_survey
    rw [if_pos (And.intro h1 h2)]
  · intro h1 h2
    unfold typeform_scholarship
    rw [if_pos (And.intro h1 h2)]

/-- Witness for C9: with all secrets configured, a wrong shared secret and
an empty signature header are rejected on each of the six paths with the
store untouched. -/
theorem C9_auth_failure_no_side_effects_witness :
    kit_tag_added exCfgS exExt "course-123" exKitPayload "wrong" exDB0 =
      (.error ⟨401, "Invalid webhook secret"⟩, exDB0) ∧
    form_submission exCfgS exExt "ccfb" ⟨"a@x.com", none, none, none⟩ "wrong" exDB0 =
      (.error ⟨401, "Invalid webhook secret"⟩, exDB0) ∧
    stripe_checkout exCfgS exExt "now" (utf8 "x") "" exEvent exDB0 =
      (.error ⟨401, "Invalid Stripe signature"⟩, exDB0) ∧
    typeform_submission exCfgS exExt "ccfb" (utf8 "x") "" exTFPayload exDB0 =
      (.error ⟨401, "Invalid Typeform signature"⟩, exDB0) ∧
    typeform_completion_survey exCfgS "ccfb" (utf8 "x") "" exTFPayload exDB0 =
      (.error ⟨401, "Invalid Typeform signature"⟩, exDB0) ∧
    typeform_scholarship exCfgS "now" (utf8 "x") "" exTFPayload exDB0 =
      (.error ⟨401, "Invalid Typeform signature"⟩, exDB0) := by
  have h := C9_auth_failure_no_side_effects exCfgS exExt exDB0 (utf8 "x") ""
    "wrong" "now" "course-123" "ccfb" exKitPayload ⟨"a@x.com", none, none, none⟩
    exEvent exTFPayload
  exact ⟨h.1 (by decide) (by decide), h.2.1 (by decide) (by decide),
    h.2.2.1 (by decide) (by decide), h.2.2.2.1 (by decide) (by decide),
    h.2.2.2.2.1 (by decide) (by decide), h.2.2.2.2.2 (by decide) (by decide)⟩

/-- C1: for a valid tagging-service creation event whose person and
enrollment do not exist yet, the first delivery enrols and creates exactly
one Student and one Enrollment; redelivering the identical event answers
already_enrolled with the same enrollment_id and leaves the store exactly
as it was, so any number of redeliveries still yields one Enrollment and
one Person. -/
theorem C1_enrollment_idempotent (cfg : Config) (ext : Ext)
    (kit_tag provided : String) (payload : KitPayload) (db : DB)
    (prod : Product)
    (hsec : cfg.kitWebhookSecret = "" ∨ provided = cfg.kitWebhookSecret)
    (hprod : db.products.find? (fun p => p.kit_tag == some kit_tag) = some prod)
    (hstu : db.students.find? (fun s => pyLower s.email == normEmail payload.subscriber.email_address) = none)
    (henr : db.enrollments.find? (fun e => e.enrollment_id == normEmail payload.subscriber.email_address ++ "_" ++ prod.product_id) = none) :
    (enrollRespOf (kit_tag_added cfg ext kit_tag payload provided db).1).map (fun r => r.status) = some "enrolled" ∧
    (enrollRespOf (kit_tag_added cfg ext kit_tag payload provided db).1).map (fun r => r.enrollment_id) =
      some (normEmail payload.subscriber.email_address ++ "_" ++ prod.product_id) ∧
    countStudents (kit_tag_added cfg ext kit_tag payload provided db).2 (normEmail payload.subscriber.email_address) = 1 ∧
    countEnrollments (kit_tag_added cfg ext kit_tag payload provided db).2 (normEmail payload.subscriber.email_address ++ "_" ++ prod.product_id) = 1 ∧
    (enrollRespOf (kit_tag_added cfg ext kit_tag payload provided (kit_tag_added cfg ext kit_tag payload provided db).2).1).map (fun r => r.status) = some "already_enrolled" ∧
    (enrollRespOf (kit_tag_added cfg ext kit_tag payload provided (kit_tag_added cfg ext kit_tag payload provided db).2).1).map (fun r => r.enrollment_id) =
      some (normEmail payload.subscriber.email_address ++ "_" ++ prod.product_id) ∧
    (kit_tag_added cfg ext kit_tag payload provided (kit_tag_added cfg ext kit_tag payload provided db).2).2 =
      (kit_tag_added cfg ext kit_tag payload provided db).2 ∧
    (∀ n, kitRedeliver cfg ext kit_tag payload provided n (kit_tag_added cfg ext kit_tag payload provided db).2 =
      (kit_tag_added cfg ext kit_tag payload provided db).2) := by
  have hauth : ¬(cfg.kitWebhookSecret ≠ "" ∧ provided ≠ cfg.kitWebhookSecret) := by
    rcases hsec with h | h
    · exact fun hc => hc.1 h
    · exact fun hc => hc.2 h
  have hself : (pyLower (normEmail payload.subscriber.email_address) ==
      normEmail payload.subscriber.email_address) = true := by
    rw [pyLower_normEmail]
    exact beq_self_eq_true _
  have hfilstu : db.students.filter
      (fun s => pyLower s.email == normEmail payload.subscriber.email_address) = [] :=
    List.filter_eq_nil_iff.mpr (List.find?_eq_none.mp hstu)
  have hfilenr : db.enrollments.filter
      (fun e => e.enrollment_id == normEmail payload.subscriber.email_address ++ "_" ++ prod.product_id) = [] :=
    List.filter_eq_nil_iff.mpr (List.find?_eq_none.mp henr)
  refine ⟨?_, ?_, ?_, ?_, ?_, ?_, ?_, ?_⟩
  · simp only [kit_tag_added, if_neg hauth, hprod, _find_or_create_student,
      hstu, _create_enrollment, henr, enrollRespOf]
    simp [enrollRespOf]
  · simp only [kit_tag_added, if_neg hauth, hprod, _find_or_create_student,
      hstu, _create_enrollment, henr, enrollRespOf]
    simp [enrollRespOf]
  · simp only [kit_tag_added, if_neg hauth, hprod, _find_or_create_student,
      hstu, _create_enrollment, henr, countStudents]
    simp [countStudents, List.filter_append, hfilstu, hself]
  · simp only [kit_tag_added, if_neg hauth, hprod, _find_or_create_student,
      hstu, _create_enrollment, henr, countEnrollments]
    simp [countEnrollments, List.filter_append, hfilenr]
  · simp only [kit_tag_added, if_neg hauth, hprod, _find_or_create_student,
      hstu, _create_enrollment, henr]
    simp [kit_tag_added, if_neg hauth, hprod, _find_or_create_student,
      _create_enrollment, List.find?_append, hstu, henr, hself,
      List.find?_cons, enrollRespOf, optNatTruthy]
  · simp only [kit_tag_added, if_neg hauth, hprod, _find_or_create_student,
      hstu, _create_enrollment, henr]
    simp [kit_tag_added, if_neg hauth, hprod, _find_or_create_student,
      _create_enrollment, List.find?_append, hstu, henr, hself,
      List.find?_cons, enrollRespOf, optNatTruthy]
  · simp only [kit_tag_added, if_neg hauth, hprod, _find_or_create_student,
      hstu, _create_enrollment, henr]
    simp [kit_tag_added, if_neg hauth, hprod, _find_or_create_student,
      _create_enrollment, List.find?_append, hstu, henr, hself,
      List.find?_cons, optNatTruthy]
  · intro n
    induction n with
    | zero => rfl
    | succ m ih =>
      rw [kitRedeliver]
      have hfix : (kit_tag_added cfg ext kit_tag payload provided
          (kit_tag_added cfg ext kit_tag payload provided db).2).2 =
          (kit_tag_added cfg ext kit_tag payload provided db).2 := by
        simp only [kit_tag_added, if_neg hauth, hprod, _find_or_create_student,
          hstu, _create_enrollment, henr]
        simp [kit_tag_added, if_neg hauth, hprod, _find_or_create_student,
          _create_enrollment, List.find?_append, hstu, henr, hself,
          List.find?_cons, optNatTruthy]
      rw [hfix]
      exact ih

/-- Witness for C1 at the spec scenario: tag course-123 for a@x.com against
the ccfb offering enrols with enrollment_id a@x.com_ccfb; the identical
second event answers already_enrolled with the same id and exactly one
student and one enrollment rows exist. -/
theorem C1_enrollment_idempotent_witness :
    (enrollRespOf (kit_tag_added exCfg exExt "course-123" exKitPayload "" exDB0).1).map (fun r => r.status) = some "enrolled" ∧
    countStudents (kit_tag_added exCfg exExt "course-123" exKitPayload "" exDB0).2 "a@x.com" = 1 ∧
    countEnrollments (kit_tag_added exCfg exExt "course-123" exKitPayload "" exDB0).2 "a@x.com_ccfb" = 1 ∧
    (enrollRespOf (kit_tag_added exCfg exExt "course-123" exKitPayload ""
        (kit_tag_added exCfg exExt "course-123" exKitPayload "" exDB0).2).1).map (fun r => r.status) = some "already_enrolled" ∧
    (enrollRespOf (kit_tag_added exCfg exExt "course-123" exKitPayload ""
        (kit_tag_added exCfg exExt "course-123" exKitPayload "" exDB0).2).1).map (fun r => r.enrollment_id) = some "a@x.com_ccfb" := by
  have h := C1_enrollment_idempotent exCfg exExt "course-123" "" exKitPayload
    exDB0 exProduct (Or.inl rfl) (by decide) (by rfl) (by rfl)
  refine ⟨h.1, ?_, ?_, h.2.2.2.2.1, ?_⟩
  · have h3 := h.2.2.1
    have hn : normEmail exKitPayload.subscriber.email_address = "a@x.com" := by decide
    rw [hn] at h3
    exact h3
  · have h4 := h.2.2.2.1
    have hn : normEmail exKitPayload.subscriber.email_address ++ "_" ++ exProduct.product_id = "a@x.com_ccfb" := by decide
    rw [hn] at h4
    exact h4
  · have h6 := h.2.2.2.2.2.1
    have hn : normEmail exKitPayload.subscriber.email_address ++ "_" ++ exProduct.product_id = "a@x.com_ccfb" := by decide
    rw [hn] at h6
    exact h6

theorem focs_sales (db : DB) (e f l : String) :
    (_find_or_create_student db e f l).2.sales = db.sales := by
  simp only [_find_or_create_student]
  split <;> rfl

theorem focs_apps (db : DB) (e f l : String) :
    (_find_or_create_student db e f l).2.apps = db.apps := by
  simp only [_find_or_create_student]
  split <;> rfl

theorem focs_nextSaleId (db : DB) (e f l : String) :
    (_find_or_create_student db e f l).2.nextSaleId = db.nextSaleId := by
  simp only [_find_or_create_student]
  split <;> rfl

theorem ce_sales (ext : Ext) (db : DB) (s : Student) (p : Product)
    (st : String) (src : Option String) (sid : Option Nat) :
    (_create_enrollment ext db s p st src sid).2.sales = db.sales := by
  simp only [_create_enrollment]
  split
  · split <;> rfl
  · rfl

theorem ce_apps (ext : Ext) (db : DB) (s : Student) (p : Product)
    (st : String) (src : Option String) (sid : Option Nat) :
    (_create_enrollment ext db s p st src sid).2.apps = db.apps := by
  simp only [_create_enrollment]
  split
  · split <;> rfl
  · rfl

theorem updateFirst_eq_of_find?_fix {α : Type} (p : α → Bool) (f : α → α)
    (l : List α) (x : α) (h : l.find? p = some x) (hf : f x = x) :
    updateFirst p f l = l := by
  induction l with
  | nil => cases h
  | cons a as ih =>
    rw [List.find?_cons] at h
    cases hpa : p a with
    | true =>
      rw [hpa] at h
      have hax : a = x := by injection h
      rw [updateFirst, if_pos hpa, hax, hf]
    | false =>
      rw [hpa] at h
      rw [updateFirst, if_neg (by simp [hpa]), ih h]

theorem length_updateFirst {α : Type} (p : α → Bool) (f : α → α)
    (l : List α) : (updateFirst p f l).length = l.length := by
  induction l with
  | nil => rfl
  | cons a as ih =>
    rw [updateFirst]
    by_cases hpa : p a = true
    · rw [if_pos hpa]
      rfl
    · rw [if_neg hpa, List.length_cons, List.length_cons, ih]

/-- C4: a checkout.session.completed event that inserts a new Sale while an
accepted scholarship application exists for the same normalised buyer email
and the same offering produces, in the one store returned by the handler,
the inserted Sale with its scholarship flag set together with the
application marked enrolled — both writes land in the same unit of work. -/
theorem C4_scholarship_automatch (cfg : Config) (ext : Ext)
    (now : String) (body : List Nat) (sig_header : String)
    (event : StripeEvent) (db : DB) (prod : Product) (email : String)
    (app0 : ScholarshipApplication)
    (hsec : cfg.stripeWebhookSecret = "" ∨ _verify_stripe_signature body sig_header cfg.stripeWebhookSecret = true)
    (htype : event.type = some "checkout.session.completed")
    (hemail : truthyStr (pyOrStr event.session.customer_email event.session.customer_details_email) = some email)
    (hprodr : resolveStripeProduct db event.session = some prod)
    (hnosale : db.sales.find? (fun s => s.sale_id == "stripe_" ++ event.session.id) = none)
    (happ : db.apps.find? (scholarshipMatch (normEmail email) prod) = some app0) :
    (stripe_checkout cfg ext now body sig_header event db).2.sales =
      db.sales ++ [{ id := db.nextSaleId, sale_id := "stripe_" ++ event.session.id, buyer_email := normEmail email, buyer_name := truthyStr (some (event.session.customer_details_name.getD "")), product_id := prod.id, amount_cents := event.session.amount_total.getD 0, currency := pyUpper ((truthyStr event.session.currency).getD "usd"), quantity := 1, status := "completed", source := some "stripe", stripe_checkout_session_id := some event.session.id, stripe_payment_intent_id := event.session.payment_intent, purchase_date := some now, scholarship := true }] ∧
    (stripe_checkout cfg ext now body sig_header event db).2.apps =
      updateFirst (scholarshipMatch (normEmail email) prod) (fun a => { a with enrolled := true }) db.apps := by
  have hauth : ¬(cfg.stripeWebhookSecret ≠ "" ∧
      _verify_stripe_signature body sig_header cfg.stripeWebhookSecret = false) := by
    rcases hsec with h | h
    · exact fun hc => hc.1 h
    · exact fun hc => absurd (h.symm.trans hc.2) (by decide)
  have htype2 : ¬(event.type ≠ some "checkout.session.completed") :=
    fun hc => hc htype
  simp only [stripe_checkout, if_neg hauth, if_neg htype2, hemail, hprodr,
    focs_sales, focs_apps, focs_nextSaleId, hnosale, happ, ce_sales, ce_apps]
  rw [updateFirst_append_of_find?_none _ _ _ _ hnosale]
  simp [updateFirst]

/-- Witness for C4 at the spec scenario: metadata product ccfb, amount
49900 usd, an accepted application for the same email — the created Sale
carries scholarship true and the application is enrolled. -/
theorem C4_scholarship_automatch_witness :
    (stripe_checkout exCfg exExt "2026-01-01T00:00:00" [] "" exEvent exDB1).2.sales.map
        (fun s => (s.sale_id, s.scholarship, s.amount_cents, s.currency)) =
      [("stripe_sess1", true, 49900, "USD")] ∧
    (stripe_checkout exCfg exExt "2026-01-01T00:00:00" [] "" exEvent exDB1).2.apps.map
        (fun a => (a.status, a.enrolled)) = [("accepted", true)] := by
  have h := C4_scholarship_automatch exCfg exExt "2026-01-01T00:00:00" [] ""
    exEvent exDB1 exProduct "a@x.com" { exApp with status := "accepted" }
    (Or.inl rfl) (by decide) (by decide) (by decide) (by rfl) (by decide)
  constructor
  · rw [h.1]
    decide
  · rw [h.2]
    decide

/-- C3 counterexample: the store exDB2 is produced by actually delivering
the payment event once (application still pending, Sale inserted with
scholarship false); after the application is accepted, redelivering the
identical event mutates the existing Sale — its scholarship flag flips to
true — refuting the claim that no field of the existing Sale changes on
redelivery. -/
theorem C3_counterexample :
    exDB3.sales.map (fun s => (s.sale_id, s.scholarship)) = [("stripe_sess1", false)] ∧
    (stripe_checkout exCfg exExt "2026-01-02T00:00:00" [] "" exEvent exDB3).2.sales.map
        (fun s => (s.sale_id, s.scholarship)) = [("stripe_sess1", true)] ∧
    (stripe_checkout exCfg exExt "2026-01-02T00:00:00" [] "" exEvent exDB3).2.sales ≠ exDB3.sales := by
  decide

/-- C3 amended: redelivery of a payment event with an existing transaction
key never inserts a second Sale; the existing row is returned unchanged in
every field except that scholarship auto-matching re-runs on each delivery:
with no accepted matching application the store is untouched, with one the
scholarship flag of the existing Sale is set and the application marked
enrolled; if the flag (and enrolled mark) are already set — in particular
on immediate redelivery after the first delivery — the store is again
untouched. -/
theorem C3_sale_redelivery (cfg : Config) (ext : Ext) (now : String)
    (body : List Nat) (sig_header : String) (event : StripeEvent) (db : DB)
    (prod : Product) (email : String) (sale0 : Sale)
    (hsec : cfg.stripeWebhookSecret = "" ∨ _verify_stripe_signature body sig_header cfg.stripeWebhookSecret = true)
    (htype : event.type = some "checkout.session.completed")
    (hemail : truthyStr (pyOrStr event.session.customer_email event.session.customer_details_email) = some email)
    (hprodr : resolveStripeProduct db event.session = some prod)
    (hsale : db.sales.find? (fun s => s.sale_id == "stripe_" ++ event.session.id) = some sale0) :
    ((stripe_checkout cfg ext now body sig_header event db).2.sales.length = db.sales.length) ∧
    (db.apps.find? (scholarshipMatch (normEmail email) prod) = none →
      (stripe_checkout cfg ext now body sig_header event db).2.sales = db.sales ∧
      (stripe_checkout cfg ext now body sig_header event db).2.apps = db.apps) ∧
    (∀ app0, db.apps.find? (scholarshipMatch (normEmail email) prod) = some app0 →
      (stripe_checkout cfg ext now body sig_header event db).2.sales =
        updateFirst (fun s => s.sale_id == "stripe_" ++ event.session.id) (fun s => { s with scholarship := true }) db.sales ∧
      (stripe_checkout cfg ext now body sig_header event db).2.apps =
        updateFirst (scholarshipMatch (normEmail email) prod) (fun a => { a with enrolled := true }) db.apps) ∧
    (∀ app0, db.apps.find? (scholarshipMatch (normEmail email) prod) = some app0 →
      sale0.scholarship = true → app0.enrolled = true →
      (stripe_checkout cfg ext now body sig_header event db).2.sales = db.sales ∧
      (stripe_checkout cfg ext now body sig_header event db).2.apps = db.apps) := by
  have hauth : ¬(cfg.stripeWebhookSecret ≠ "" ∧
      _verify_stripe_signature body sig_header cfg.stripeWebhookSecret = false) := by
    rcases hsec with h | h
    · exact fun hc => hc.1 h
    · exact fun hc => absurd (h.symm.trans hc.2) (by decide)
  have htype2 : ¬(event.type ≠ some "checkout.session.completed") :=
    fun hc => hc htype
  have hfix : ∀ app0, db.apps.find? (scholarshipMatch (normEmail email) prod) = some app0 →
      sale0.scholarship = true → app0.enrolled = true →
      (updateFirst (fun s => s.sale_id == "stripe_" ++ event.session.id) (fun s => { s with scholarship := true }) db.sales = db.sales ∧
       updateFirst (scholarshipMatch (normEmail email) prod) (fun a => { a with enrolled := true }) db.apps = db.apps) := by
    intro app0 happ hs ha
    constructor
    · apply updateFirst_eq_of_find?_fix _ _ _ sale0 hsale
      cases sale0
      simp only at hs
      simp [hs]
    · apply updateFirst_eq_of_find?_fix _ _ _ app0 happ
      cases app0
      simp only at ha
      simp [ha]
  refine ⟨?_, ?_, ?_, ?_⟩
  · cases happ : db.apps.find? (scholarshipMatch (normEmail email) prod) with
    | none =>
      simp only [stripe_checkout, if_neg hauth, if_neg htype2, hemail, hprodr,
        focs_sales, focs_apps, focs_nextSaleId, hsale, happ, ce_sales, ce_apps]
    | some app0 =>
      simp only [stripe_checkout, if_neg hauth, if_neg htype2, hemail, hprodr,
        focs_sales, focs_apps, focs_nextSaleId, hsale, happ, ce_sales, ce_apps]
      exact length_updateFirst _ _ _
  · intro happ
    simp only [stripe_checkout, if_neg hauth, if_neg htype2, hemail, hprodr,
      focs_sales, focs_apps, focs_nextSaleId, hsale, happ, ce_sales, ce_apps]
    refine ⟨?_, ?_⟩ <;> trivial
  · intro app0 happ
    simp only [stripe_checkout, if_neg hauth, if_neg htype2, hemail, hprodr,
      focs_sales, focs_apps, focs_nextSaleId, hsale, happ, ce_sales, ce_apps]
    refine ⟨?_, ?_⟩ <;> trivial
  · intro app0 happ hs ha
    simp only [stripe_checkout, if_neg hauth, if_neg htype2, hemail, hprodr,
      focs_sales, focs_apps, focs_nextSaleId, hsale, happ, ce_sales, ce_apps]
    exact (hfix app0 happ hs ha)

/-- Witness for C3 amended: immediate redelivery of the scenario event
against the store its first delivery produced (scholarship already matched)
returns the store with sales and applications untouched and still exactly
one Sale row. -/
theorem C3_sale_redelivery_witness :
    (stripe_checkout exCfg exExt "2026-01-02T00:00:00" [] "" exEvent
      (stripe_checkout exCfg exExt "2026-01-01T00:00:00" [] "" exEvent exDB1).2).2.sales =
      (stripe_checkout exCfg exExt "2026-01-01T00:00:00" [] "" exEvent exDB1).2.sales ∧
    (stripe_checkout exCfg exExt "2026-01-02T00:00:00" [] "" exEvent
      (stripe_checkout exCfg exExt "2026-01-01T00:00:00" [] "" exEvent exDB1).2).2.sales.length =
      (stripe_checkout exCfg exExt "2026-01-01T00:00:00" [] "" exEvent exDB1).2.sales.length := by
  have h := C3_sale_redelivery exCfg exExt "2026-01-02T00:00:00" [] "" exEvent
    (stripe_checkout exCfg exExt "2026-01-01T00:00:00" [] "" exEvent exDB1).2
    exProduct "a@x.com"
    { id := 1, sale_id := "stripe_sess1", buyer_email := "a@x.com", buyer_name := some "Ada L", product_id := 1, amount_cents := 49900, currency := "USD", quantity := 1, status := "completed", source := some "stripe", stripe_checkout_session_id := some "sess1", stripe_payment_intent_id := some "pi_1", purchase_date := some "2026-01-01T00:00:00", scholarship := true }
    (Or.inl rfl) (by decide) (by decide) (by decide) (by decide)
  have h4 := h.2.2.2 { exApp with status := "accepted", enrolled := true }
    (by decide) (by decide) (by decide)
  exact ⟨h4.1, h.1⟩

end StudentDb
